import Mathlib

/-!
Shallow embedding of the Modbus protocol engine of genmon
(`genmonlib/mymodbus.py`, constants from `genmonlib/modbusbase.py`).

Machine bytes are modelled as `Nat`; wherever Python would overflow a
byte when converting a list to a `bytearray` (raising `ValueError`,
caught by the surrounding `try`), the embedding takes the corresponding
error path explicitly.  The mutable object state (inbound buffer and the
statistics counters) is a record threaded through each operation.
-/

namespace Genmon

/-- One bit step of CRC-16/MODBUS (polynomial 0xA001 reflected), as computed
by `crcmod.predefined.mkCrcFun ("modbus")` used in `mymodbus.py`. -/
def crcBit (crc : Nat) : Nat :=
  if crc % 2 = 1 then (crc / 2) ^^^ 0xA001 else crc / 2

/-- One byte step of CRC-16/MODBUS: xor the byte in, then eight bit steps. -/
def crcByte (crc b : Nat) : Nat :=
  crcBit (crcBit (crcBit (crcBit (crcBit (crcBit (crcBit (crcBit (crc ^^^ b))))))))

/-- CRC-16/MODBUS over a byte list, from a given initial state. -/
def crcFrom (init : Nat) (data : List Nat) : Nat := data.foldl crcByte init

/-- CRC-16/MODBUS of a byte list (init 0xFFFF, no final xor):
the `self.ModbusCrc` function of `ModbusProtocol`. -/
def ModbusCrc (data : List Nat) : Nat := crcFrom 0xFFFF data

/- Constants from `modbusbase.py`.  The constructor of `ModbusProtocol`
shrinks several of them by the CRC size (2) when Modbus TCP is enabled,
so those are functions of the `tcp` flag. -/

def MBUS_OFF_ADDRESS : Nat := 0x00
def MBUS_OFF_COMMAND : Nat := 0x01
def MBUS_OFF_EXCEPTION : Nat := 0x02
def MBUS_OFF_RESPONSE_LEN : Nat := 0x02
def MBUS_OFF_FILE_TYPE : Nat := 0x04
def MBUS_OFF_WRITE_FILE_TYPE : Nat := 0x03
def MBUS_OFF_FILE_PAYLOAD_LEN : Nat := 0x03
def MBUS_OFF_FILE_PAYLOAD : Nat := 0x05
def MODBUS_TCP_HEADER_SIZE : Nat := 0x06
def MBUS_CRC_SIZE (tcp : Bool) : Nat := if tcp then 0 else 2
def MIN_PACKET_ERR_LENGTH (tcp : Bool) : Nat := if tcp then 3 else 5
def MIN_PACKET_RESPONSE_LENGTH (tcp : Bool) : Nat := if tcp then 4 else 6
def MBUS_RES_PAYLOAD_SIZE_MINUS_LENGTH (tcp : Bool) : Nat := if tcp then 3 else 5
def MBUS_FILE_READ_PAYLOAD_SIZE_MINUS_LENGTH (tcp : Bool) : Nat := if tcp then 3 else 5
def MIN_PACKET_MIN_WRITE_RESPONSE_LENGTH : Nat := 0x08
def MBUS_SINGLE_WRITE_RES_LENGTH : Nat := 0x08
def MBUS_READ_FILE_REQUEST_PAYLOAD_LENGTH : Nat := 0x07
def MBUS_FILE_WRITE_REQ_SIZE_MINUS_LENGTH : Nat := 0x07
def MAX_MODBUS_PACKET_SIZE : Nat := 0x100
def MAX_REGISTER : Int := 0xFFFF
def MIN_REGISTER : Int := 0x0
def MAX_FILE_RECORD_NUM : Int := 0x270F
def MIN_FILE_RECORD_NUM : Int := 0x0
def MAX_FILE_NUMBER : Nat := 0xFFFF
def MIN_FILE_NUMBER : Nat := 0x01

def MBUS_CMD_READ_COILS : Nat := 0x01
def MBUS_CMD_READ_HOLDING_REGS : Nat := 0x03
def MBUS_CMD_READ_INPUT_REGS : Nat := 0x04
def MBUS_CMD_WRITE_COIL : Nat := 0x05
def MBUS_CMD_WRITE_REG : Nat := 0x06
def MBUS_CMD_WRITE_COILS : Nat := 0x0F
def MBUS_CMD_WRITE_REGS : Nat := 0x10
def MBUS_CMD_READ_FILE : Nat := 0x14
def MBUS_CMD_WRITE_FILE : Nat := 0x15
def MBUS_FILE_TYPE_VALUE : Nat := 0x06
def MBUS_ERROR_BIT : Nat := 0x80

def MBUS_EXCEP_FUNCTION : Nat := 0x01
def MBUS_EXCEP_ADDRESS : Nat := 0x02
def MBUS_EXCEP_DATA : Nat := 0x03
def MBUS_EXCEP_SLAVE_FAIL : Nat := 0x04
def MBUS_EXCEP_ACK : Nat := 0x05
def MBUS_EXCEP_BUSY : Nat := 0x06
def MBUS_EXCEP_NACK : Nat := 0x07
def MBUS_EXCEP_MEM_PE : Nat := 0x08
def MBUS_EXCEP_GATEWAY : Nat := 0x0A
def MBUS_EXCEP_GATEWAY_TG : Nat := 0x0B

/-- The mutable state of a `ModbusProtocol` object that the protocol engine
reads and writes: configuration, the shared inbound buffer (`Slave.Buffer`),
and the statistics counters initialized in `ModbusBase.__init__`. -/
structure MbState where
  modbusTCP : Bool
  address : Nat
  responseAddress : Option Nat
  alternateFileProtocol : Bool
  transactionID : Nat
  currentTransactionID : Nat
  buffer : List Nat
  rxPacketCount : Nat
  txPacketCount : Nat
  crcError : Nat
  comTimoutError : Nat
  modbusException : Nat
  comValidationError : Nat
  comSyncError : Nat
  unexpectedData : Nat
  discardedBytes : Nat
  excepFunction : Nat
  excepAddress : Nat
  excepData : Nat
  excepSlave : Nat
  excepAck : Nat
  excepBusy : Nat
  excepNack : Nat
  excepMemPe : Nat
  excepGateway : Nat
  excepGateWayTg : Nat
deriving Repr, DecidableEq

/-- `SerialDevice.Flush` / `SerialTCPDevice.Flush`: empties the inbound buffer. -/
def Flush (s : MbState) : MbState := { s with buffer := [] }

/-- `SerialDevice.DiscardByte`: pops the oldest buffered byte (when present)
and counts it.  `ModbusProtocol.DiscardByte` only adds logging on top. -/
def DiscardByte (s : MbState) : MbState :=
  if s.buffer.length ≠ 0 then
    { s with buffer := s.buffer.tail, discardedBytes := s.discardedBytes + 1 }
  else s

/-- `ModbusProtocol.CheckResponseAddress`. -/
def CheckResponseAddress (s : MbState) (a : Nat) : Bool :=
  if a = s.address then true
  else
    match s.responseAddress with
    | none => false
    | some r => a = r

/-- Lowercase hex of `n`, zero padded on the left to at least `width` digits
(Python `"%0<width>x" % n`): the base-16 digits of `n`, most significant
first, rendered with `Nat.digitChar` (0-9, a-f). -/
def fmtHex (width n : Nat) : String :=
  let ds := (Nat.digits 16 n).reverse.map Nat.digitChar
  String.mk (List.replicate (width - ds.length) '0' ++ ds)

/-- `ModbusProtocol.GetExceptionString`: bumps the per-exception-code counter
(`elif` chain: at most one) and returns the description string. -/
def GetExceptionString (s : MbState) (code : Nat) : MbState × String :=
  let s :=
    if code = MBUS_EXCEP_FUNCTION then { s with excepFunction := s.excepFunction + 1 }
    else if code = MBUS_EXCEP_ADDRESS then { s with excepAddress := s.excepAddress + 1 }
    else if code = MBUS_EXCEP_DATA then { s with excepData := s.excepData + 1 }
    else if code = MBUS_EXCEP_SLAVE_FAIL then { s with excepSlave := s.excepSlave + 1 }
    else if code = MBUS_EXCEP_ACK then { s with excepAck := s.excepAck + 1 }
    else if code = MBUS_EXCEP_BUSY then { s with excepBusy := s.excepBusy + 1 }
    else if code = MBUS_EXCEP_NACK then { s with excepNack := s.excepNack + 1 }
    else if code = MBUS_EXCEP_MEM_PE then { s with excepMemPe := s.excepMemPe + 1 }
    else if code = MBUS_EXCEP_GATEWAY then { s with excepGateway := s.excepGateway + 1 }
    else if code = MBUS_EXCEP_GATEWAY_TG then { s with excepGateWayTg := s.excepGateWayTg + 1 }
    else s
  let base :=
    if code = MBUS_EXCEP_FUNCTION then "Illegal Function"
    else if code = MBUS_EXCEP_ADDRESS then "Illegal Address"
    else if code = MBUS_EXCEP_DATA then "Illegal Data Value"
    else if code = MBUS_EXCEP_SLAVE_FAIL then "Slave Device Failure"
    else if code = MBUS_EXCEP_ACK then "Acknowledge"
    else if code = MBUS_EXCEP_BUSY then "Slave Device Busy"
    else if code = MBUS_EXCEP_NACK then "Negative Acknowledge"
    else if code = MBUS_EXCEP_MEM_PE then "Memory Parity Error"
    else if code = MBUS_EXCEP_GATEWAY then "Gateway Path Unavailable"
    else if code = MBUS_EXCEP_GATEWAY_TG then "Gateway Target Device Failed to Respond"
    else "Unknown"
  (s, base ++ ": " ++ fmtHex 2 code)

/-- `ModbusProtocol.CheckCRC`.  With Modbus TCP every packet passes.  Without
it, an empty packet fails; a packet whose body holds a non-byte value makes
`bytearray` raise (caught: `False`); a 1-element packet raises an
`IndexError` on `Packet[-2]` (caught: `False`); otherwise the computed CRC is
compared against the little-endian CRC trailer. -/
def CheckCRC (s : MbState) (packet : List Nat) : Bool :=
  if s.modbusTCP then true
  else if packet.length = 0 then false
  else if ¬ (packet.take (packet.length - 2)).all (· < 256) then false
  else if packet.length < 2 then false
  else
    let results := ModbusCrc (packet.take (packet.length - 2))
    let crcValue := ((packet.getD (packet.length - 1) 0 &&& 0xFF) <<< 8) |||
      (packet.getD (packet.length - 2) 0 &&& 0xFF)
    results = crcValue

/-- `ModbusProtocol.GetCRC`: `None` on an empty packet, and `None` when a
value in the packet does not fit a byte (the `bytearray` conversion raises and
the handler returns `None`). -/
def GetCRC (packet : List Nat) : Option Nat :=
  if packet.length = 0 then none
  else if packet.all (· < 256) then some (ModbusCrc packet)
  else none

/-- The Modbus TCP header stage of `GetPacketFromSlave` (lines 250-286):
either an early return (`inl`) or the state with the 6-byte MBAP header
removed, ready for the common body (`inr`).  Reached with a non-empty
buffer; every index below is guarded by the preceding length checks. -/
def gpsHeader (s : MbState) : (MbState × Bool × List Nat) ⊕ MbState :=
  if s.modbusTCP then
    if s.buffer.length < MIN_PACKET_ERR_LENGTH true + MODBUS_TCP_HEADER_SIZE then
      .inl (s, true, [])
    else
      let rxID := (s.buffer.getD 0 0 <<< 8) ||| (s.buffer.getD 1 0 &&& 0xFF)
      if s.currentTransactionID ≠ rxID then
        .inl (Flush (DiscardByte s), false, [])
      else if s.buffer.getD 2 0 ≠ 0 ∨ s.buffer.getD 3 0 ≠ 0 then
        .inl (Flush (DiscardByte s), false, [])
      else
        let modbusTCPLength := (s.buffer.getD 4 0 <<< 8) ||| (s.buffer.getD 5 0 &&& 0xFF)
        if (s.buffer.drop 6).length ≠ modbusTCPLength then
          .inl (s, true, [])
        else
          .inr { s with buffer := s.buffer.drop MODBUS_TCP_HEADER_SIZE }
  else .inr s

/-- The post-header part of `GetPacketFromSlave` (lines 288-447).  The buffer
is non-empty here (in RTU mode it was checked; in TCP mode at least the
declared TCP payload, itself at least `MIN_PACKET_ERR_LENGTH`, remains).
The two `match ... [·]?` sites are the file-type accesses, the only reads
that can raise an `IndexError` (TCP mode with a small override); the handler
then counts a validation error and returns failure. -/
def gpsBody (s : MbState) (ovr : Option Nat) : MbState × Bool × List Nat :=
  let tcp := s.modbusTCP
  if ¬ CheckResponseAddress s (s.buffer.getD MBUS_OFF_ADDRESS 0) then
    (Flush (DiscardByte s), false, [])
  else if s.buffer.length < MIN_PACKET_ERR_LENGTH tcp then
    (s, true, [])
  else if s.buffer.getD MBUS_OFF_COMMAND 0 &&& MBUS_ERROR_BIT ≠ 0 then
    let packet := s.buffer.take (MIN_PACKET_ERR_LENGTH tcp)
    let s1 := { s with buffer := s.buffer.drop (MIN_PACKET_ERR_LENGTH tcp) }
    if CheckCRC s1 packet then
      let s2 := { s1 with rxPacketCount := s1.rxPacketCount + 1,
                          modbusException := s1.modbusException + 1 }
      ((GetExceptionString s2 (packet.getD MBUS_OFF_EXCEPTION 0)).1, false, packet)
    else
      ({ s1 with crcError := s1.crcError + 1 }, false, packet)
  else
    let minResp := match ovr with
      | some m => m
      | none => MIN_PACKET_RESPONSE_LENGTH tcp
    if s.buffer.length < minResp then
      (s, true, [])
    else
      let cmd := s.buffer.getD MBUS_OFF_COMMAND 0
      if cmd = MBUS_CMD_READ_HOLDING_REGS ∨ cmd = MBUS_CMD_READ_INPUT_REGS ∨
          cmd = MBUS_CMD_READ_COILS then
        let len := s.buffer.getD MBUS_OFF_RESPONSE_LEN 0
        if len + MBUS_RES_PAYLOAD_SIZE_MINUS_LENGTH tcp > s.buffer.length then
          (s, true, [])
        else
          let n := len + MBUS_RES_PAYLOAD_SIZE_MINUS_LENGTH tcp
          let packet := s.buffer.take n
          let s1 := { s with buffer := s.buffer.drop n }
          if CheckCRC s1 packet then
            ({ s1 with rxPacketCount := s1.rxPacketCount + 1 }, true, packet)
          else
            ({ s1 with crcError := s1.crcError + 1 }, false, packet)
      else if cmd = MBUS_CMD_WRITE_REGS ∨ cmd = MBUS_CMD_WRITE_COILS then
        if s.buffer.length < MIN_PACKET_MIN_WRITE_RESPONSE_LENGTH then
          (s, true, [])
        else
          let packet := s.buffer.take MIN_PACKET_MIN_WRITE_RESPONSE_LENGTH
          let s1 := { s with buffer := s.buffer.drop MIN_PACKET_MIN_WRITE_RESPONSE_LENGTH }
          if CheckCRC s1 packet then
            ({ s1 with rxPacketCount := s1.rxPacketCount + 1 }, true, packet)
          else
            ({ s1 with crcError := s1.crcError + 1 }, false, packet)
      else if cmd = MBUS_CMD_WRITE_COIL ∨ cmd = MBUS_CMD_WRITE_REG then
        if s.buffer.length < MBUS_SINGLE_WRITE_RES_LENGTH then
          (s, true, [])
        else
          let packet := s.buffer.take MIN_PACKET_MIN_WRITE_RESPONSE_LENGTH
          let s1 := { s with buffer := s.buffer.drop MIN_PACKET_MIN_WRITE_RESPONSE_LENGTH }
          if CheckCRC s1 packet then
            ({ s1 with rxPacketCount := s1.rxPacketCount + 1 }, true, packet)
          else
            ({ s1 with crcError := s1.crcError + 1 }, false, packet)
      else if cmd = MBUS_CMD_READ_FILE then
        let len := s.buffer.getD MBUS_OFF_RESPONSE_LEN 0
        match s.buffer[MBUS_OFF_FILE_TYPE]? with
        | none => ({ s with comValidationError := s.comValidationError + 1 }, false, [])
        | some ft =>
          if ft ≠ MBUS_FILE_TYPE_VALUE then
            ({ s with comValidationError := s.comValidationError + 1 }, false, [])
          else if len + MBUS_FILE_READ_PAYLOAD_SIZE_MINUS_LENGTH tcp > s.buffer.length then
            (s, true, [])
          else
            let packet := s.buffer
            let s1 := { s with buffer := [] }
            if CheckCRC s1 packet then
              ({ s1 with rxPacketCount := s1.rxPacketCount + 1 }, true, packet)
            else
              ({ s1 with crcError := s1.crcError + 1 }, false, packet)
      else if cmd = MBUS_CMD_WRITE_FILE then
        let len := s.buffer.getD MBUS_OFF_RESPONSE_LEN 0
        match s.buffer[MBUS_OFF_WRITE_FILE_TYPE]? with
        | none => ({ s with comValidationError := s.comValidationError + 1 }, false, [])
        | some ft =>
          if ft ≠ MBUS_FILE_TYPE_VALUE then
            ({ s with comValidationError := s.comValidationError + 1 }, false, [])
          else if len + MBUS_FILE_READ_PAYLOAD_SIZE_MINUS_LENGTH tcp > s.buffer.length then
            (s, true, [])
          else
            let packet := s.buffer
            let s1 := { s with buffer := [] }
            if CheckCRC s1 packet then
              ({ s1 with rxPacketCount := s1.rxPacketCount + 1 }, true, packet)
            else
              ({ s1 with crcError := s1.crcError + 1 }, false, packet)
      else
        (Flush (DiscardByte s), false, [])

/-- `ModbusProtocol.GetPacketFromSlave`: returns the updated state, the
success flag and the packet.  `(true, [])` means "need more data",
`(false, _)` means an error occurred, `(true, packet)` is a valid frame. -/
def GetPacketFromSlave (s : MbState) (ovr : Option Nat) : MbState × Bool × List Nat :=
  if s.buffer.length = 0 then (s, true, [])
  else
    match gpsHeader s with
    | .inl r => r
    | .inr s1 => gpsBody s1 ovr

/-- `ModbusProtocol.GetTransactionID`: hands out the current counter value,
records it as the in-flight ID, and advances the counter with a wrap to 0
past 0xFFFF. -/
def GetTransactionID (s : MbState) : MbState × Nat :=
  let id := s.transactionID
  let t := s.transactionID + 1
  let t := if t > 0xFFFF then 0 else t
  ({ s with currentTransactionID := id, transactionID := t }, id)

/-- `ModbusProtocol.ConvertToModbusModbusTCP`: drops the two CRC bytes (when
present) and prepends the 6-byte MBAP header
`[tidHi, tidLo, 0, 0, lenHi, lenLo]`. -/
def ConvertToModbusModbusTCP (s : MbState) (packet : List Nat) : MbState × List Nat :=
  if ¬ s.modbusTCP then (s, packet)
  else
    let p := if packet.length ≥ 2 then packet.dropLast.dropLast else packet
    let len := p.length
    let r := GetTransactionID s
    (r.1, [(r.2 &&& 0xFF00) >>> 8, r.2 &&& 0xFF, 0, 0,
           (len &&& 0xFF00) >>> 8, len &&& 0xFF] ++ p)

/-- Coil byte count in the `MBUS_CMD_WRITE_COILS` branch of
`CreateMasterPacket`: `int(length / 8)` plus one when a remainder exists. -/
def coilByteCount (length : Nat) : Nat :=
  length / 8 + (if length % 8 > 0 then 1 else 0)

/-- The coil bit-packing loop of the `MBUS_CMD_WRITE_COILS` branch,
reproduced byte for byte: `even_data = data[::2]`, `odd_data = data[1::2]`,
a bit is 0 only when the pair at `byteindex` is (0, 0), the accumulated
`ByteValue` is appended on every iteration, and `bitindex` wraps past 7. -/
def packCoilStep (data : List Nat) (st : Nat × Nat × List Nat)
    (byteindex : Nat) : Nat × Nat × List Nat :=
  let evenLen := (data.length + 1) / 2
  let oddLen := data.length / 2
  let bitValue :=
    if byteindex < evenLen ∧ byteindex < oddLen ∧
        data.getD (2 * byteindex) 0 = 0 ∧ data.getD (2 * byteindex + 1) 0 = 0
    then 0 else 1
  let byteValue := st.1 ||| (bitValue <<< st.2.1)
  let bitindex := st.2.1 + 1
  let bitindex := if bitindex > 7 then 0 else bitindex
  (byteValue, bitindex, st.2.2 ++ [byteValue])

def packCoilData (data : List Nat) (byteCount : Nat) : List Nat :=
  ((List.range byteCount).foldl (packCoilStep data) (0, 0, [])).2.2

/-- Append the CRC trailer (low byte first) when `GetCRC` succeeds, exactly as
each branch of `CreateMasterPacket` does. -/
def appendCRC (body : List Nat) : List Nat :=
  match GetCRC body with
  | some c => body ++ [c &&& 0xFF, c >>> 8]
  | none => body

/-- The tail of `CreateMasterPacket` (lines 1075-1084): the maximum-size
validation and the Modbus TCP wrapping. -/
def cmpFinish (s : MbState) (packet : List Nat) : MbState × List Nat :=
  if packet.length > MAX_MODBUS_PACKET_SIZE then
    ({ s with comValidationError := s.comValidationError + 1 }, [])
  else if s.modbusTCP then ConvertToModbusModbusTCP s packet
  else (s, packet)

/-- `ModbusProtocol.CreateMasterPacket`.  `register` is the `Int` produced by
`int(register, 16)`; the remaining arguments mirror the Python signature
(`data` defaults to `[]`, `file_num` to 1 at call sites).  Validation errors
return an empty packet after counting one validation error. -/
def CreateMasterPacket (s : MbState) (register : Int) (length : Nat)
    (command : Nat) (data : List Nat) (file_num : Nat) : MbState × List Nat :=
  if register < MIN_REGISTER ∨ register > MAX_REGISTER then
    ({ s with comValidationError := s.comValidationError + 1 }, [])
  else if file_num < MIN_FILE_NUMBER ∨ file_num > MAX_FILE_NUMBER then
    ({ s with comValidationError := s.comValidationError + 1 }, [])
  else if (command = MBUS_CMD_READ_FILE ∨ command = MBUS_CMD_WRITE_FILE) ∧
      (register < MIN_FILE_RECORD_NUM ∨ register > MAX_FILE_RECORD_NUM) then
    ({ s with comValidationError := s.comValidationError + 1 }, [])
  else if (command = MBUS_CMD_WRITE_REGS ∨ command = MBUS_CMD_WRITE_COILS ∨
      command = MBUS_CMD_WRITE_FILE) ∧ data.length = 0 then
    ({ s with comValidationError := s.comValidationError + 1 }, [])
  else if (command = MBUS_CMD_WRITE_REGS ∨ command = MBUS_CMD_WRITE_COILS ∨
      command = MBUS_CMD_WRITE_FILE) ∧ data.length ≠ 2 * length then
    ({ s with comValidationError := s.comValidationError + 1 }, [])
  else if (command = MBUS_CMD_WRITE_COIL ∨ command = MBUS_CMD_WRITE_REG) ∧
      (length ≠ 1 ∨ data.length ≠ 2) then
    ({ s with comValidationError := s.comValidationError + 1 }, [])
  else
    let r := register.toNat
    if command = MBUS_CMD_READ_HOLDING_REGS ∨ command = MBUS_CMD_READ_COILS ∨
        command = MBUS_CMD_READ_INPUT_REGS then
      cmpFinish s (appendCRC
        [s.address, command, r >>> 8, r &&& 0xFF, length >>> 8, length &&& 0xFF])
    else if command = MBUS_CMD_WRITE_REGS then
      cmpFinish s (appendCRC
        ([s.address, command, r >>> 8, r &&& 0xFF, length >>> 8, length &&& 0xFF,
          data.length] ++ data))
    else if command = MBUS_CMD_WRITE_COILS then
      cmpFinish s (appendCRC
        ([s.address, command, r >>> 8, r &&& 0xFF, length >>> 8, length &&& 0xFF,
          coilByteCount length] ++ packCoilData data (coilByteCount length)))
    else if command = MBUS_CMD_WRITE_COIL ∨ command = MBUS_CMD_WRITE_REG then
      cmpFinish s (appendCRC
        ([s.address, command, r >>> 8, r &&& 0xFF] ++
          (if command = MBUS_CMD_WRITE_COIL then
            (if data.getD 0 0 ≠ 0 ∨ data.getD 1 0 ≠ 0 then [0xFF, 0x00]
             else [0x00, 0x00])
           else [data.getD 0 0, data.getD 1 0])))
    else if command = MBUS_CMD_READ_FILE then
      cmpFinish s (appendCRC
        [s.address, command, MBUS_READ_FILE_REQUEST_PAYLOAD_LENGTH,
         MBUS_FILE_TYPE_VALUE, file_num >>> 8, file_num &&& 0xFF,
         r >>> 8, r &&& 0xFF, length >>> 8, length &&& 0xFF])
    else if command = MBUS_CMD_WRITE_FILE then
      cmpFinish s (appendCRC
        ([s.address, command, length * 2 + MBUS_FILE_WRITE_REQ_SIZE_MINUS_LENGTH,
          MBUS_FILE_TYPE_VALUE, file_num >>> 8, file_num &&& 0xFF,
          r >>> 8, r &&& 0xFF, length >>> 8, length &&& 0xFF] ++ data))
    else
      ({ s with comValidationError := s.comValidationError + 1 }, [])

/-- `ModbusProtocol.GetRegisterFromPacket`: big-endian register (or file
record number) field; an `IndexError` is caught and yields the initial 0. -/
def GetRegisterFromPacket (packet : List Nat) (off : Nat) : Nat :=
  match packet[MBUS_OFF_COMMAND + off]? with
  | none => 0
  | some cmd =>
    if cmd = MBUS_CMD_READ_FILE ∨ cmd = MBUS_CMD_WRITE_FILE then
      match packet[6 + off]?, packet[7 + off]? with
      | some h, some l => (h <<< 8) ||| (l &&& 0xFF)
      | _, _ => 0
    else
      match packet[2 + off]?, packet[3 + off]? with
      | some h, some l => (h <<< 8) ||| (l &&& 0xFF)
      | _, _ => 0

/-- The injected register-cache callback `UpdateRegisterList`, with arguments
(register, value, IsString, IsCoil, IsInput, IsFile). -/
def UpdateFn := String → String → Bool → Bool → Bool → Bool → Bool

/-- The payload loops of `_URFP`: hex-encode every byte, and in parallel
build the text value from the bytes, where a zero byte contributes nothing
(`if SlavePacket[i]:`) but later non-zero bytes still do. -/
def hexAndText (payload : List Nat) : String × String :=
  payload.foldl
    (fun acc b =>
      (acc.1 ++ fmtHex 2 b,
       if b ≠ 0 then acc.2 ++ String.mk [Char.ofNat b] else acc.2))
    ("", "")

/-- The `ValidCommands` list of `_URFP`. -/
def ValidCommands : List Nat :=
  [MBUS_CMD_READ_COILS, MBUS_CMD_READ_INPUT_REGS, MBUS_CMD_READ_HOLDING_REGS,
   MBUS_CMD_WRITE_REGS, MBUS_CMD_WRITE_COILS, MBUS_CMD_READ_FILE,
   MBUS_CMD_WRITE_FILE, MBUS_CMD_WRITE_COIL, MBUS_CMD_WRITE_REG]

/-- `ModbusProtocol._URFP` (`UpdateRegistersFromPacket`): cross-checks the
request/response pair, extracts the value, and feeds the register cache
callback.  Mismatches return the sentinel string with no counter change; the
sync-error counter is bumped only when the callback rejects the update.
The `match ... [·]?` reads model the `IndexError` sites of the original
(caught: `"Error"`), including the unguarded callback call in the file
branch when the callback is absent (`TypeError`, caught). -/
def URFP (upd : Option UpdateFn) (s : MbState) (master slave : List Nat)
    (skipUpdate returnString : Bool) : MbState × String :=
  let tcp := s.modbusTCP
  if master.length < MIN_PACKET_RESPONSE_LENGTH tcp ∨
      slave.length < MIN_PACKET_RESPONSE_LENGTH tcp then (s, "Error")
  else
    let off := if tcp then MODBUS_TCP_HEADER_SIZE else 0
    match master[MBUS_OFF_ADDRESS + off]?, master[MBUS_OFF_COMMAND + off]? with
    | some mAddr, some mCmd =>
      if mAddr ≠ s.address then (s, "Error")
      else if ¬ CheckResponseAddress s (slave.getD MBUS_OFF_ADDRESS 0) then (s, "Error")
      else if slave.getD MBUS_OFF_COMMAND 0 ∉ ValidCommands then (s, "Error")
      else if mCmd ∉ ValidCommands then (s, "Error")
      else if mCmd ≠ slave.getD MBUS_OFF_COMMAND 0 then (s, "Error")
      else
        let register := fmtHex 4 (GetRegisterFromPacket master off)
        if (mCmd = MBUS_CMD_WRITE_REGS ∨ mCmd = MBUS_CMD_WRITE_FILE) ∧
            fmtHex 4 (GetRegisterFromPacket slave 0) ≠ register then (s, "Error")
        else if mCmd = MBUS_CMD_READ_HOLDING_REGS ∨ mCmd = MBUS_CMD_READ_INPUT_REGS ∨
            mCmd = MBUS_CMD_READ_COILS then
          let isCoil := mCmd = MBUS_CMD_READ_COILS
          let isInput := mCmd = MBUS_CMD_READ_INPUT_REGS
          let len := slave.getD MBUS_OFF_RESPONSE_LEN 0
          if len + MBUS_RES_PAYLOAD_SIZE_MINUS_LENGTH tcp > slave.length then (s, "Error")
          else
            let v := hexAndText ((slave.drop 3).take len)
            let afterUpd : Option (MbState × String) :=
              if ¬ skipUpdate then
                match upd with
                | none => none
                | some f =>
                  if ¬ returnString then
                    if ¬ f register v.1 false isCoil isInput false then
                      some ({ s with comSyncError := s.comSyncError + 1 }, "Error")
                    else none
                  else
                    if ¬ f register v.2 true isCoil isInput false then
                      some ({ s with comSyncError := s.comSyncError + 1 }, "Error")
                    else none
              else none
            match afterUpd with
            | some r => r
            | none => if returnString then (s, v.2) else (s, v.1)
        else if mCmd = MBUS_CMD_READ_FILE then
          let payloadLen : Int :=
            (slave.getD MBUS_OFF_FILE_PAYLOAD_LEN 0 : Int) -
              (if s.alternateFileProtocol then 0 else 1)
          if payloadLen > 0 ∧
              (MBUS_OFF_FILE_PAYLOAD : Int) + payloadLen > (slave.length : Int) then
            (s, "Error")
          else
            let v := hexAndText ((slave.drop MBUS_OFF_FILE_PAYLOAD).take payloadLen.toNat)
            let afterUpd : Option (MbState × String) :=
              if ¬ skipUpdate then
                match upd with
                | none => some (s, "Error")
                | some f =>
                  if ¬ returnString then
                    if ¬ f register v.1 false false false true then
                      some ({ s with comSyncError := s.comSyncError + 1 }, "Error")
                    else none
                  else
                    if ¬ f register v.2 true false false true then
                      some ({ s with comSyncError := s.comSyncError + 1 }, "Error")
                    else none
              else none
            match afterUpd with
            | some r => r
            | none => if returnString then (s, v.2) else (s, v.1)
        else
          -- write responses: both extraction branches skipped, empty values
          if returnString then (s, "") else (s, "")
    | _, _ => (s, "Error")

/-- One poll-loop observation inside `ProcessOneTransaction`: the bytes the
reader thread appended to the buffer before this iteration's parse attempt,
and the wall-clock milliseconds elapsed at the timeout check. -/
structure PollEvent where
  arrived : List Nat
  msElapsed : Nat
deriving Repr, DecidableEq

/-- Which exit `ProcessOneTransaction` took.  `outOfEvents` is the artifact
of modelling the unbounded Python `while True` with a finite event list: the
loop was still waiting when the supplied events ran out. -/
inductive PotTag
  | ok
  | rejected
  | timeout
  | extractErr
  | outOfEvents
deriving Repr, DecidableEq

/-- The `while True` wait loop of `ProcessOneTransaction` together with the
post-loop extraction: break on a received packet then extract (flushing and
counting a validation error when the extractor yields the sentinel), return
on a parser rejection (flush), or give up past the timeout (count, flush). -/
def potLoop (upd : Option UpdateFn) (timeoutMS : Nat) (master : List Nat)
    (skipUpdate returnString : Bool) (ovr : Option Nat) :
    MbState → List PollEvent → MbState × String × PotTag
  | s, [] => (s, "", .outOfEvents)
  | s, e :: rest =>
    let r := GetPacketFromSlave { s with buffer := s.buffer ++ e.arrived } ovr
    if r.2.1 = true ∧ r.2.2.length ≠ 0 then
      let u := URFP upd r.1 master r.2.2 skipUpdate returnString
      if u.2 = "Error" then
        (Flush { u.1 with comValidationError := u.1.comValidationError + 1 },
         "", .extractErr)
      else (u.1, u.2, .ok)
    else if r.2.1 = false then
      (Flush r.1, "", .rejected)
    else if e.msElapsed > timeoutMS then
      (Flush { r.1 with comTimoutError := r.1.comTimoutError + 1 }, "", .timeout)
    else
      potLoop upd timeoutMS master skipUpdate returnString ovr r.1 rest

/-- `ModbusProtocol.ProcessOneTransaction`: flush stale leftover bytes
(counting them), send the master packet, then run the wait loop. -/
def ProcessOneTransaction (upd : Option UpdateFn) (timeoutMS : Nat) (s : MbState)
    (master : List Nat) (skipUpdate returnString : Bool) (ovr : Option Nat)
    (events : List PollEvent) : MbState × String × PotTag :=
  let s1 := if s.buffer.length ≠ 0 then
    Flush { s with unexpectedData := s.unexpectedData + 1 } else s
  let s2 := { s1 with txPacketCount := s1.txPacketCount + 1 }
  potLoop upd timeoutMS master skipUpdate returnString ovr s2 events

/-- The Python `_PWT` returns either the literal `False` or the transaction
result string. -/
inductive PwtResult
  | failed
  | value (v : String)
deriving Repr, DecidableEq

/-- `ModbusProtocol._PWT` (write transaction): choose the function code from
the flags, build the packet, bail out on an empty (invalid) packet, otherwise
run the transaction with `skipupdate=True`.  The third component records the
bytes handed to the transport, `none` when nothing was ever sent. -/
def pwtCmd (isCoil isSingle : Bool) : Nat :=
  if isCoil then
    (if ¬ isSingle then MBUS_CMD_WRITE_COILS else MBUS_CMD_WRITE_COIL)
  else
    (if ¬ isSingle then MBUS_CMD_WRITE_REGS else MBUS_CMD_WRITE_REG)

def PWT (upd : Option UpdateFn) (timeoutMS : Nat) (s : MbState) (register : Int)
    (length : Nat) (data : List Nat) (ovr : Option Nat) (isCoil isSingle : Bool)
    (events : List PollEvent) : MbState × PwtResult × Option (List Nat) :=
  let cmd := pwtCmd isCoil isSingle
  let c := CreateMasterPacket s register length cmd data 1
  if c.2.length = 0 then (c.1, .failed, none)
  else
    let r := ProcessOneTransaction upd timeoutMS c.1 c.2 true false ovr events
    (r.1, .value r.2.1, some c.2)

/-! ## Shared concrete states and small helpers for the theorems below -/

/-- A freshly constructed engine state: all statistics counters zero, empty
inbound buffer replaced by `buf`, slave address `addr`, Modbus TCP per `tcp`. -/
def initState (tcp : Bool) (addr : Nat) (buf : List Nat) : MbState :=
  { modbusTCP := tcp, address := addr, responseAddress := none,
    alternateFileProtocol := false, transactionID := 0, currentTransactionID := 0,
    buffer := buf, rxPacketCount := 0, txPacketCount := 0, crcError := 0,
    comTimoutError := 0, modbusException := 0, comValidationError := 0,
    comSyncError := 0, unexpectedData := 0, discardedBytes := 0,
    excepFunction := 0, excepAddress := 0, excepData := 0, excepSlave := 0,
    excepAck := 0, excepBusy := 0, excepNack := 0, excepMemPe := 0,
    excepGateway := 0, excepGateWayTg := 0 }

/-- The modbus exception codes that have a dedicated statistics counter in
`GetExceptionString` (0x09 and codes above 0x0B have none). -/
def exceptionCodes : List Nat :=
  [MBUS_EXCEP_FUNCTION, MBUS_EXCEP_ADDRESS, MBUS_EXCEP_DATA, MBUS_EXCEP_SLAVE_FAIL,
   MBUS_EXCEP_ACK, MBUS_EXCEP_BUSY, MBUS_EXCEP_NACK, MBUS_EXCEP_MEM_PE,
   MBUS_EXCEP_GATEWAY, MBUS_EXCEP_GATEWAY_TG]

/-- The per-exception-code counter that `GetExceptionString` selects for a
given code (0 for codes without a counter). -/
def excepCounter (code : Nat) (s : MbState) : Nat :=
  if code = MBUS_EXCEP_FUNCTION then s.excepFunction
  else if code = MBUS_EXCEP_ADDRESS then s.excepAddress
  else if code = MBUS_EXCEP_DATA then s.excepData
  else if code = MBUS_EXCEP_SLAVE_FAIL then s.excepSlave
  else if code = MBUS_EXCEP_ACK then s.excepAck
  else if code = MBUS_EXCEP_BUSY then s.excepBusy
  else if code = MBUS_EXCEP_NACK then s.excepNack
  else if code = MBUS_EXCEP_MEM_PE then s.excepMemPe
  else if code = MBUS_EXCEP_GATEWAY then s.excepGateway
  else if code = MBUS_EXCEP_GATEWAY_TG then s.excepGateWayTg
  else 0

/-- The function codes `CreateMasterPacket` can build a packet for. -/
def supportedCommand (cmd : Nat) : Prop :=
  cmd = MBUS_CMD_READ_HOLDING_REGS ∨ cmd = MBUS_CMD_READ_COILS ∨
  cmd = MBUS_CMD_READ_INPUT_REGS ∨ cmd = MBUS_CMD_WRITE_REGS ∨
  cmd = MBUS_CMD_WRITE_COILS ∨ cmd = MBUS_CMD_WRITE_COIL ∨
  cmd = MBUS_CMD_WRITE_REG ∨ cmd = MBUS_CMD_READ_FILE ∨
  cmd = MBUS_CMD_WRITE_FILE

instance (cmd : Nat) : Decidable (supportedCommand cmd) := by
  unfold supportedCommand; infer_instance

/-- Size of the fully built request (CRC included) per function code, as a
function of the declared length and the data payload size. -/
def builtSize (cmd length dataLen : Nat) : Nat :=
  if cmd = MBUS_CMD_READ_HOLDING_REGS ∨ cmd = MBUS_CMD_READ_COILS ∨
      cmd = MBUS_CMD_READ_INPUT_REGS then 8
  else if cmd = MBUS_CMD_WRITE_REGS then 9 + dataLen
  else if cmd = MBUS_CMD_WRITE_COILS then 9 + coilByteCount length
  else if cmd = MBUS_CMD_WRITE_COIL ∨ cmd = MBUS_CMD_WRITE_REG then 8
  else if cmd = MBUS_CMD_READ_FILE then 12
  else if cmd = MBUS_CMD_WRITE_FILE then 12 + dataLen
  else 0

/-- The full set of conditions under which `CreateMasterPacket` rejects a
request: the parameter checks of lines 899-937, an unsupported function
code (line 1068), and the maximum-packet-size check (line 1075). -/
def requestInvalid (register : Int) (length command dataLen file_num : Nat) : Prop :=
  register < MIN_REGISTER ∨ register > MAX_REGISTER ∨
  (file_num < MIN_FILE_NUMBER ∨ file_num > MAX_FILE_NUMBER) ∨
  ((command = MBUS_CMD_READ_FILE ∨ command = MBUS_CMD_WRITE_FILE) ∧
    (register < MIN_FILE_RECORD_NUM ∨ register > MAX_FILE_RECORD_NUM)) ∨
  ((command = MBUS_CMD_WRITE_REGS ∨ command = MBUS_CMD_WRITE_COILS ∨
      command = MBUS_CMD_WRITE_FILE) ∧ (dataLen = 0 ∨ dataLen ≠ 2 * length)) ∨
  ((command = MBUS_CMD_WRITE_COIL ∨ command = MBUS_CMD_WRITE_REG) ∧
    (length ≠ 1 ∨ dataLen ≠ 2)) ∨
  (¬ supportedCommand command) ∨
  builtSize command length dataLen > MAX_MODBUS_PACKET_SIZE

instance (register : Int) (length command dataLen file_num : Nat) :
    Decidable (requestInvalid register length command dataLen file_num) := by
  unfold requestInvalid; infer_instance

/-! ## C10 -/

/-- C10: in Modbus-TCP mode `CheckCRC` returns `True` for every input packet,
the empty packet included — no CRC verification happens over Modbus TCP —
while with Modbus TCP disabled the empty packet fails the check. -/
theorem claim_C10 :
    (∀ (s : MbState) (p : List Nat), s.modbusTCP = true → CheckCRC s p = true) ∧
    (∀ s : MbState, s.modbusTCP = false → CheckCRC s [] = false) := by
  constructor
  · intro s p h
    simp [CheckCRC, h]
  · intro s h
    simp [CheckCRC, h]

/-- C10 witness: the two parts of `claim_C10` evaluated on concrete states and
the empty packet. -/
theorem claim_C10_witness :
    CheckCRC (initState true 1 []) [] = true ∧
    CheckCRC (initState false 1 []) [] = false :=
  ⟨claim_C10.1 (initState true 1 []) [] rfl, claim_C10.2 (initState false 1 []) rfl⟩

/-! ## CRC facts: range preservation and injectivity, used for the
single-byte-corruption results -/

theorem crcBit_lt {x : Nat} (h : x < 65536) : crcBit x < 65536 := by
  unfold crcBit
  split
  · have h1 : x / 2 < 2 ^ 16 := by omega
    have h2 : (0xA001 : Nat) < 2 ^ 16 := by norm_num
    simpa using Nat.xor_lt_two_pow h1 h2
  · omega

theorem crcBit_inj {x y : Nat} (hx : x < 65536) (hy : y < 65536)
    (h : crcBit x = crcBit y) : x = y := by
  unfold crcBit at h
  have hxb : (x / 2).testBit 15 = false := Nat.testBit_lt_two_pow (by omega)
  have hyb : (y / 2).testBit 15 = false := Nat.testBit_lt_two_pow (by omega)
  have hA : (0xA001 : Nat).testBit 15 = true := by decide
  split_ifs at h with h1 h2 h2
  · have : x / 2 = y / 2 := by
      have h3 := congrArg (· ^^^ 0xA001) h
      simpa [Nat.xor_cancel_right] using h3
    omega
  · exfalso
    have h3 := congrArg (fun t => t.testBit 15) h
    simp only [Nat.testBit_xor, hxb, hyb, hA] at h3
    exact absurd h3 (by decide)
  · exfalso
    have h3 := congrArg (fun t => t.testBit 15) h
    simp only [Nat.testBit_xor, hxb, hyb, hA] at h3
    exact absurd h3 (by decide)
  · omega

theorem crcBit8_inj {x y : Nat} (hx : x < 65536) (hy : y < 65536)
    (h : crcBit (crcBit (crcBit (crcBit (crcBit (crcBit (crcBit (crcBit x))))))) =
      crcBit (crcBit (crcBit (crcBit (crcBit (crcBit (crcBit (crcBit y)))))))) :
    x = y := by
  have hx1 := crcBit_lt hx
  have hx2 := crcBit_lt hx1
  have hx3 := crcBit_lt hx2
  have hx4 := crcBit_lt hx3
  have hx5 := crcBit_lt hx4
  have hx6 := crcBit_lt hx5
  have hx7 := crcBit_lt hx6
  have hy1 := crcBit_lt hy
  have hy2 := crcBit_lt hy1
  have hy3 := crcBit_lt hy2
  have hy4 := crcBit_lt hy3
  have hy5 := crcBit_lt hy4
  have hy6 := crcBit_lt hy5
  have hy7 := crcBit_lt hy6
  exact crcBit_inj hx hy (crcBit_inj hx1 hy1 (crcBit_inj hx2 hy2 (crcBit_inj hx3 hy3
    (crcBit_inj hx4 hy4 (crcBit_inj hx5 hy5 (crcBit_inj hx6 hy6
      (crcBit_inj hx7 hy7 h)))))))

theorem crcByte_lt {c b : Nat} (hc : c < 65536) (hb : b < 65536) :
    crcByte c b < 65536 := by
  unfold crcByte
  have h0 : c ^^^ b < 65536 := by
    have := Nat.xor_lt_two_pow (n := 16) (x := c) (y := b) (by omega) (by omega)
    omega
  exact crcBit_lt (crcBit_lt (crcBit_lt (crcBit_lt (crcBit_lt (crcBit_lt
    (crcBit_lt (crcBit_lt h0)))))))

theorem crcByte_inj_state {c c' b : Nat} (hc : c < 65536) (hc' : c' < 65536)
    (hb : b < 65536) (h : crcByte c b = crcByte c' b) : c = c' := by
  unfold crcByte at h
  have h0 : c ^^^ b < 65536 := by
    have := Nat.xor_lt_two_pow (n := 16) (x := c) (y := b) (by omega) (by omega)
    omega
  have h0' : c' ^^^ b < 65536 := by
    have := Nat.xor_lt_two_pow (n := 16) (x := c') (y := b) (by omega) (by omega)
    omega
  have h1 : c ^^^ b = c' ^^^ b := crcBit8_inj h0 h0' h
  have h2 := congrArg (· ^^^ b) h1
  simpa [Nat.xor_cancel_right] using h2

theorem crcByte_inj_byte {c b b' : Nat} (hc : c < 65536) (hb : b < 65536)
    (hb' : b' < 65536) (h : crcByte c b = crcByte c b') : b = b' := by
  unfold crcByte at h
  have h0 : c ^^^ b < 65536 := by
    have := Nat.xor_lt_two_pow (n := 16) (x := c) (y := b) (by omega) (by omega)
    omega
  have h0' : c ^^^ b' < 65536 := by
    have := Nat.xor_lt_two_pow (n := 16) (x := c) (y := b') (by omega) (by omega)
    omega
  have h1 : c ^^^ b = c ^^^ b' := crcBit8_inj h0 h0' h
  have h2 := congrArg (c ^^^ ·) h1
  simpa [← Nat.xor_assoc, Nat.xor_self, Nat.zero_xor] using h2

theorem crcFrom_lt {l : List Nat} (hl : ∀ b ∈ l, b < 65536) :
    ∀ {c : Nat}, c < 65536 → crcFrom c l < 65536 := by
  induction l with
  | nil => intro c hc; simpa [crcFrom] using hc
  | cons b t ih =>
    intro c hc
    have hb : b < 65536 := hl b (by simp)
    have ht : ∀ x ∈ t, x < 65536 := fun x hx => hl x (by simp [hx])
    simpa [crcFrom] using ih ht (crcByte_lt hc hb)

theorem crcFrom_inj_state {l : List Nat} (hl : ∀ b ∈ l, b < 65536) :
    ∀ {c c' : Nat}, c < 65536 → c' < 65536 →
      crcFrom c l = crcFrom c' l → c = c' := by
  induction l with
  | nil => intro c c' _ _ h; simpa [crcFrom] using h
  | cons b t ih =>
    intro c c' hc hc' h
    have hb : b < 65536 := hl b (by simp)
    have ht : ∀ x ∈ t, x < 65536 := fun x hx => hl x (by simp [hx])
    have h1 : crcByte c b = crcByte c' b := by
      exact ih ht (crcByte_lt hc hb) (crcByte_lt hc' hb) (by simpa [crcFrom] using h)
    exact crcByte_inj_state hc hc' hb h1

/-- Changing exactly one byte of the CRC input changes the CRC. -/
theorem modbusCrc_update_ne {u v : List Nat} {b b' : Nat}
    (hu : ∀ x ∈ u, x < 65536) (hv : ∀ x ∈ v, x < 65536)
    (hb : b < 65536) (hb' : b' < 65536) (hne : b ≠ b') :
    ModbusCrc (u ++ b :: v) ≠ ModbusCrc (u ++ b' :: v) := by
  intro h
  have hS : crcFrom 0xFFFF u < 65536 := crcFrom_lt hu (by norm_num)
  have h1 : crcFrom (crcByte (crcFrom 0xFFFF u) b) v =
      crcFrom (crcByte (crcFrom 0xFFFF u) b') v := by
    simpa [ModbusCrc, crcFrom, List.foldl_append] using h
  have h2 : crcByte (crcFrom 0xFFFF u) b = crcByte (crcFrom 0xFFFF u) b' :=
    crcFrom_inj_state hv (crcByte_lt hS hb) (crcByte_lt hS hb') h1
  exact hne (crcByte_inj_byte hS hb hb' h2)

/-! ## List and bit-packing helper lemmas -/

theorem getD_take_lt {l : List Nat} {i n d : Nat} (h : i < n) :
    (l.take n).getD i d = l.getD i d := by
  simp [List.getD, List.getElem?_take, h]

theorem getD_set_ne {l : List Nat} {i j a d : Nat} (h : i ≠ j) :
    (l.set i a).getD j d = l.getD j d := by
  simp [List.getD, List.getElem?_set_ne h]

theorem getD_set_self {l : List Nat} {i a d : Nat} (h : i < l.length) :
    (l.set i a).getD i d = a := by
  simp [List.getD, List.getElem?_set_self, h]

theorem set_getD_self {l : List Nat} {i : Nat} (h : i < l.length) :
    l.set i (l.getD i 0) = l := by
  rw [List.getD_eq_getElem l 0 h]
  apply List.ext_getElem
  · simp
  · intro n h1 h2
    simp only [List.getElem_set]
    split
    · next he => subst he; rfl
    · rfl

theorem take_set_comm {l : List Nat} {i a n : Nat} :
    (l.set i a).take n = (l.take n).set i a := by
  apply List.ext_getElem?
  intro j
  by_cases hj : j < n
  · by_cases hij : i = j
    · subst hij
      by_cases hil : i < l.length
      · simp [List.getElem?_take, hj, List.getElem?_set_self, hil]
      · simp [List.getElem?_take, hj, List.getElem?_set, hil]
    · simp [List.getElem?_take, hj, List.getElem?_set_ne hij]
  · simp [List.getElem?_take, hj]
    try omega

theorem take_set_of_le {l : List Nat} {i a n : Nat} (h : n ≤ i) :
    (l.set i a).take n = l.take n := by
  apply List.ext_getElem?
  intro j
  by_cases hj : j < n
  · have hij : i ≠ j := by omega
    simp [List.getElem?_take, hj, List.getElem?_set_ne hij]
  · simp [List.getElem?_take, hj]

theorem or_shiftRight (x y n : Nat) : (x ||| y) >>> n = (x >>> n) ||| (y >>> n) := by
  apply Nat.eq_of_testBit_eq
  intro i
  simp [Nat.testBit_shiftRight, Nat.testBit_or]

theorem or_and_right (x y z : Nat) : (x ||| y) &&& z = (x &&& z) ||| (y &&& z) := by
  apply Nat.eq_of_testBit_eq
  intro i
  simp [Nat.testBit_and, Nat.testBit_or, Bool.and_or_distrib_right]

theorem and_255_eq_mod (x : Nat) : x &&& 255 = x % 256 := by
  have h : (255 : Nat) = 2 ^ 8 - 1 := by norm_num
  rw [h, Nat.and_pow_two_sub_one_eq_mod]

/-- Recover the high byte of the 16-bit big-endian packing used by `CheckCRC`. -/
theorem pack16_hi (a c : Nat) (hc : c < 256) : ((a <<< 8) ||| c) >>> 8 = a := by
  rw [or_shiftRight]
  have h1 : c >>> 8 = 0 := by
    rw [Nat.shiftRight_eq_div_pow]
    omega
  have h2 : (a <<< 8) >>> 8 = a := by
    rw [Nat.shiftLeft_eq, Nat.shiftRight_eq_div_pow]
    exact Nat.mul_div_cancel a (by norm_num)
  simp [h1, h2]

/-- Recover the low byte of the 16-bit big-endian packing used by `CheckCRC`. -/
theorem pack16_lo (a c : Nat) (hc : c < 256) : ((a <<< 8) ||| c) &&& 255 = c := by
  rw [or_and_right]
  have h1 : (a <<< 8) &&& 255 = 0 := by
    rw [and_255_eq_mod, Nat.shiftLeft_eq]
    simp [Nat.mul_mod_left]
  have h2 : c &&& 255 = c := by
    rw [and_255_eq_mod]
    omega
  simp [h1, h2]

theorem getD_mem {l : List Nat} {i : Nat} (h : i < l.length) : l.getD i 0 ∈ l := by
  rw [List.getD_eq_getElem l 0 h]
  exact List.getElem_mem h

/-- `CheckCRC` in RTU mode, once the guards pass, is the comparison of the
computed CRC against the little-endian trailer. -/
theorem checkCRC_rtu_eq {s : MbState} (hts : s.modbusTCP = false) {p : List Nat}
    (hlen : 2 ≤ p.length) (hbytes : ∀ x ∈ p.take (p.length - 2), x < 256) :
    CheckCRC s p =
      decide (ModbusCrc (p.take (p.length - 2)) =
        ((p.getD (p.length - 1) 0 &&& 255) <<< 8) |||
          (p.getD (p.length - 2) 0 &&& 255)) := by
  unfold CheckCRC
  rw [if_neg (by simp [hts])]
  rw [if_neg (by omega)]
  rw [if_neg (by
    simp only [not_not, List.all_eq_true, decide_eq_true_eq]
    exact hbytes)]
  rw [if_neg (by omega)]

theorem checkCRC_rtu_true_elim {s : MbState} (hts : s.modbusTCP = false)
    {p : List Nat} (h : CheckCRC s p = true) :
    2 ≤ p.length ∧
      ModbusCrc (p.take (p.length - 2)) =
        ((p.getD (p.length - 1) 0 &&& 255) <<< 8) |||
          (p.getD (p.length - 2) 0 &&& 255) := by
  unfold CheckCRC at h
  rw [if_neg (by simp [hts])] at h
  by_cases h0 : p.length = 0
  · rw [if_pos h0] at h; simp at h
  · rw [if_neg h0] at h
    by_cases h1 : ¬ (p.take (p.length - 2)).all (· < 256)
    · rw [if_pos h1] at h; simp at h
    · rw [if_neg h1] at h
      by_cases h2 : p.length < 2
      · rw [if_pos h2] at h; simp at h
      · rw [if_neg h2] at h
        exact ⟨by omega, of_decide_eq_true h⟩

/-- Corrupting any single byte of a CRC-valid RTU frame (to a different byte
value) makes `CheckCRC` fail. -/
theorem checkCRC_set_false {s : MbState} (hts : s.modbusTCP = false)
    {frame : List Nat} (hbytes : ∀ x ∈ frame, x < 256)
    (hok : CheckCRC s frame = true) {i b' : Nat} (hi : i < frame.length)
    (hb' : b' < 256) (hne : b' ≠ frame.getD i 0) :
    CheckCRC s (frame.set i b') = false := by
  obtain ⟨hlen, heq⟩ := checkCRC_rtu_true_elim hts hok
  have hsetlen : (frame.set i b').length = frame.length := by simp
  have hb256 : ∀ x ∈ frame.take (frame.length - 2), x < 256 := fun x hx =>
    hbytes x (List.mem_of_mem_take hx)
  have hbytes2 : ∀ x ∈ (frame.set i b').take ((frame.set i b').length - 2), x < 256 := by
    intro x hx
    rw [hsetlen, take_set_comm] at hx
    rcases List.mem_or_eq_of_mem_set hx with h | h
    · exact hb256 x h
    · omega
  rw [checkCRC_rtu_eq hts (by omega) hbytes2, decide_eq_false_iff_not, hsetlen]
  rcases lt_or_ge i (frame.length - 2) with hcase | hcase
  · -- corruption inside the CRC-covered body
    have htail1 : (frame.set i b').getD (frame.length - 1) 0 =
        frame.getD (frame.length - 1) 0 := getD_set_ne (by omega)
    have htail2 : (frame.set i b').getD (frame.length - 2) 0 =
        frame.getD (frame.length - 2) 0 := getD_set_ne (by omega)
    rw [take_set_comm, htail1, htail2, ← heq]
    intro hcrceq
    have hbl : (frame.take (frame.length - 2)).length = frame.length - 2 := by
      simp
    have hib : i < (frame.take (frame.length - 2)).length := by rw [hbl]; omega
    have hdec : (frame.take (frame.length - 2)).set i b' =
        (frame.take (frame.length - 2)).take i ++
          b' :: (frame.take (frame.length - 2)).drop (i + 1) := by
      rw [List.set_eq_take_append_cons_drop, if_pos hib]
    have hold : frame.take (frame.length - 2) =
        (frame.take (frame.length - 2)).take i ++
          (frame.take (frame.length - 2)).getD i 0 ::
            (frame.take (frame.length - 2)).drop (i + 1) := by
      conv_lhs => rw [← set_getD_self hib]
      rw [List.set_eq_take_append_cons_drop, if_pos hib]
    have holdval : (frame.take (frame.length - 2)).getD i 0 = frame.getD i 0 :=
      getD_take_lt hcase
    have hu : ∀ x ∈ (frame.take (frame.length - 2)).take i, x < 65536 := fun x hx => by
      have := hb256 x (List.mem_of_mem_take hx); omega
    have hv : ∀ x ∈ (frame.take (frame.length - 2)).drop (i + 1), x < 65536 :=
      fun x hx => by
        have := hb256 x (List.mem_of_mem_drop hx); omega
    have holdlt : frame.getD i 0 < 256 := hbytes _ (getD_mem hi)
    have := @modbusCrc_update_ne ((frame.take (frame.length - 2)).take i)
      ((frame.take (frame.length - 2)).drop (i + 1)) b'
      (frame.getD i 0) hu hv (by omega) (by omega) hne
    rw [← hdec] at this
    rw [holdval] at hold
    rw [← hold] at this
    exact this hcrceq
  · -- corruption of the CRC trailer
    have hbody : (frame.set i b').take (frame.length - 2) =
        frame.take (frame.length - 2) := take_set_of_le hcase
    rw [hbody, heq]
    intro hpack
    have hhi : frame.getD (frame.length - 1) 0 < 256 := hbytes _ (getD_mem (by omega))
    have hlo : frame.getD (frame.length - 2) 0 < 256 := hbytes _ (getD_mem (by omega))
    have hmask : ∀ x : Nat, x < 256 → x &&& 255 = x := fun x hx => by
      rw [and_255_eq_mod]; omega
    rcases (by omega : i = frame.length - 2 ∨ i = frame.length - 1) with hiv | hiv
    · have g1 : (frame.set i b').getD (frame.length - 1) 0 =
          frame.getD (frame.length - 1) 0 := getD_set_ne (by omega)
      have g2 : (frame.set i b').getD (frame.length - 2) 0 = b' := by
        rw [← hiv]; exact getD_set_self hi
      rw [g1, g2, hmask _ hhi, hmask _ hlo, hmask _ hb'] at hpack
      have := congrArg (· &&& 255) hpack
      simp only [pack16_lo _ _ hlo, pack16_lo _ _ hb'] at this
      rw [hiv] at hne
      exact hne this.symm
    · have g1 : (frame.set i b').getD (frame.length - 1) 0 = b' := by
        rw [← hiv]; exact getD_set_self hi
      have g2 : (frame.set i b').getD (frame.length - 2) 0 =
          frame.getD (frame.length - 2) 0 := getD_set_ne (by omega)
      rw [g1, g2, hmask _ hhi, hmask _ hlo, hmask _ hb'] at hpack
      have := congrArg (· >>> 8) hpack
      simp only [pack16_hi _ _ hlo, pack16_hi _ _ hb'] at this
      rw [hiv] at hne
      exact hne this.symm

theorem gps_rtu {s : MbState} (hts : s.modbusTCP = false) (h0 : s.buffer ≠ [])
    (ovr : Option Nat) : GetPacketFromSlave s ovr = gpsBody s ovr := by
  unfold GetPacketFromSlave gpsHeader
  rw [if_neg (by simp [h0])]
  simp [hts]

theorem gpsBody_read_rtu {s : MbState} (hts : s.modbusTCP = false)
    (hlen5 : 5 ≤ s.buffer.length)
    (haddr : CheckResponseAddress s (s.buffer.getD 0 0) = true)
    (hcmd : s.buffer.getD 1 0 = 3 ∨ s.buffer.getD 1 0 = 4 ∨ s.buffer.getD 1 0 = 1) :
    gpsBody s none =
      if s.buffer.length < 6 then (s, true, [])
      else if s.buffer.getD 2 0 + 5 > s.buffer.length then (s, true, [])
      else
        if CheckCRC { s with buffer := s.buffer.drop (s.buffer.getD 2 0 + 5) }
            (s.buffer.take (s.buffer.getD 2 0 + 5)) then
          ({ s with
              buffer := s.buffer.drop (s.buffer.getD 2 0 + 5),
              rxPacketCount := s.rxPacketCount + 1 }, true,
           s.buffer.take (s.buffer.getD 2 0 + 5))
        else
          ({ s with
              buffer := s.buffer.drop (s.buffer.getD 2 0 + 5),
              crcError := s.crcError + 1 }, false,
           s.buffer.take (s.buffer.getD 2 0 + 5)) := by
  have herr : s.buffer.getD 1 0 &&& 128 = 0 := by
    rcases hcmd with h | h | h <;> rw [h] <;> decide
  unfold gpsBody
  rw [hts]
  simp only [MBUS_OFF_ADDRESS, MBUS_OFF_COMMAND, MBUS_OFF_RESPONSE_LEN,
    MIN_PACKET_ERR_LENGTH, MIN_PACKET_RESPONSE_LENGTH,
    MBUS_RES_PAYLOAD_SIZE_MINUS_LENGTH, MBUS_CMD_READ_HOLDING_REGS,
    MBUS_CMD_READ_INPUT_REGS, MBUS_CMD_READ_COILS, MBUS_ERROR_BIT,
    Bool.false_eq_true, if_false]
  rw [if_neg (by simpa using haddr)]
  rw [if_neg (by omega)]
  rw [if_neg (by simpa using herr)]
  by_cases hm : s.buffer.length < 6
  · rw [if_pos hm, if_pos hm]
  · rw [if_neg hm, if_neg hm]
    rw [if_pos hcmd]



theorem checkCRC_tcp_congr {s1 s2 : MbState} (h : s1.modbusTCP = s2.modbusTCP)
    (p : List Nat) : CheckCRC s1 p = CheckCRC s2 p := by
  unfold CheckCRC
  rw [h]

/-- C2 (amended): with a read-response function code (0x01, 0x03, 0x04) in
RTU mode: a buffer one byte short of the frame length implied by the
byte-count field yields NeedMoreData with nothing consumed; the complete
CRC-correct frame is consumed and returned; and the complete frame with one
byte corrupted among the data/CRC bytes (offset 3 onward — address, function
code and byte-count unchanged) is consumed, Rejected, and bumps the CRC-error
counter by exactly 1.  (The original claim, for a corrupted byte at any
position, fails: see the counterexample, corrupting the byte-count byte.) -/
theorem claim_C2 {s : MbState} {frame : List Nat} (hts : s.modbusTCP = false)
    (hcmd : frame.getD 1 0 = 3 ∨ frame.getD 1 0 = 4 ∨ frame.getD 1 0 = 1)
    (haddr : CheckResponseAddress s (frame.getD 0 0) = true)
    (hflen : frame.length = frame.getD 2 0 + 5)
    (hL : 1 ≤ frame.getD 2 0)
    (hbytes : ∀ x ∈ frame, x < 256)
    (hcrc : CheckCRC s frame = true) :
    (s.buffer = frame.dropLast → GetPacketFromSlave s none = (s, true, [])) ∧
    (s.buffer = frame →
      GetPacketFromSlave s none =
        ({ s with buffer := [], rxPacketCount := s.rxPacketCount + 1 }, true, frame)) ∧
    (∀ i b', 3 ≤ i → i < frame.length → b' < 256 → b' ≠ frame.getD i 0 →
      s.buffer = frame.set i b' →
      GetPacketFromSlave s none =
        ({ s with buffer := [], crcError := s.crcError + 1 }, false, frame.set i b')) := by
  refine ⟨?_, ?_, ?_⟩
  · intro hbuf
    have hdl : frame.dropLast = frame.take (frame.length - 1) := List.dropLast_eq_take frame
    have hblen : s.buffer.length = frame.length - 1 := by
      rw [hbuf]; simp
    have hg0 : s.buffer.getD 0 0 = frame.getD 0 0 := by
      rw [hbuf, hdl]; exact getD_take_lt (by omega)
    have hg1 : s.buffer.getD 1 0 = frame.getD 1 0 := by
      rw [hbuf, hdl]; exact getD_take_lt (by omega)
    have hg2 : s.buffer.getD 2 0 = frame.getD 2 0 := by
      rw [hbuf, hdl]; exact getD_take_lt (by omega)
    have h0 : s.buffer ≠ [] := by
      apply List.ne_nil_of_length_pos
      omega
    rw [gps_rtu hts h0, gpsBody_read_rtu hts (by omega) (by rw [hg0]; exact haddr)
      (by rw [hg1]; exact hcmd)]
    by_cases hm : s.buffer.length < 6
    · rw [if_pos hm]
    · rw [if_neg hm, if_pos (by rw [hg2]; omega)]
  · intro hbuf
    have h0 : s.buffer ≠ [] := by
      rw [hbuf]
      exact List.ne_nil_of_length_pos (by omega)
    rw [gps_rtu hts h0, gpsBody_read_rtu hts (by rw [hbuf]; omega)
      (by rw [hbuf]; exact haddr) (by rw [hbuf]; exact hcmd)]
    rw [if_neg (by rw [hbuf]; omega)]
    rw [if_neg (by rw [hbuf]; omega)]
    have htake : s.buffer.take (s.buffer.getD 2 0 + 5) = frame := by
      rw [hbuf, ← hflen]; exact List.take_length frame
    have hdrop : s.buffer.drop (s.buffer.getD 2 0 + 5) = [] := by
      rw [hbuf, ← hflen]; exact List.drop_length frame
    rw [if_pos (by
      rw [htake, hdrop]
      exact (@checkCRC_tcp_congr _ s rfl frame).trans hcrc)]
    rw [htake, hdrop]
  · intro i b' hi3 hilt hb256 hbne hbuf
    have hlenset : (frame.set i b').length = frame.length := by simp
    have hset0 : (frame.set i b').getD 0 0 = frame.getD 0 0 := getD_set_ne (by omega)
    have hset1 : (frame.set i b').getD 1 0 = frame.getD 1 0 := getD_set_ne (by omega)
    have hset2 : (frame.set i b').getD 2 0 = frame.getD 2 0 := getD_set_ne (by omega)
    have h0 : s.buffer ≠ [] := by
      rw [hbuf]
      apply List.ne_nil_of_length_pos
      rw [hlenset]
      omega
    rw [gps_rtu hts h0, gpsBody_read_rtu hts (by rw [hbuf, hlenset]; omega)
      (by rw [hbuf, hset0]; exact haddr) (by rw [hbuf, hset1]; exact hcmd)]
    rw [if_neg (by rw [hbuf, hlenset]; omega)]
    rw [if_neg (by rw [hbuf, hset2, hlenset]; omega)]
    have htake : s.buffer.take (s.buffer.getD 2 0 + 5) = frame.set i b' := by
      rw [hbuf, hset2, ← hflen, ← hlenset]; exact List.take_length _
    have hdrop : s.buffer.drop (s.buffer.getD 2 0 + 5) = [] := by
      rw [hbuf, hset2, ← hflen, ← hlenset]; exact List.drop_length _
    rw [if_neg (by
      rw [htake, hdrop]
      have hcongr := @checkCRC_tcp_congr { s with buffer := [] } s rfl
        (frame.set i b')
      rw [hcongr, checkCRC_set_false hts hbytes hcrc hilt hb256 hbne]
      simp)]
    rw [htake, hdrop]



/-- C2 counterexample: the complete 7-byte read response
`[01 03 02 12 34 B5 33]` with its byte-count byte corrupted (02 → 03) is,
per the claim, a complete frame with a corrupted byte and should be consumed
and Rejected with the CRC-error counter bumped; instead `GetPacketFromSlave`
returns NeedMoreData (success with an empty packet), consumes nothing, and
leaves the CRC-error counter at 0. -/
theorem claim_C2_counterexample :
    GetPacketFromSlave (initState false 1 [1, 3, 3, 0x12, 0x34, 0xB5, 0x33]) none =
      (initState false 1 [1, 3, 3, 0x12, 0x34, 0xB5, 0x33], true, []) ∧
    (GetPacketFromSlave (initState false 1 [1, 3, 3, 0x12, 0x34, 0xB5, 0x33]) none).1.crcError
      = 0 := by
  constructor <;> decide

/-- C2 witness: `claim_C2` applied to the concrete frame
`[01 03 02 12 34 B5 33]` with its byte at offset 4 corrupted (34 → 35):
the frame is consumed, Rejected, and the CRC-error counter goes up by 1. -/
theorem claim_C2_witness :
    GetPacketFromSlave
        (initState false 1 ([1, 3, 2, 0x12, 0x34, 0xB5, 0x33].set 4 0x35)) none =
      ({ initState false 1 ([1, 3, 2, 0x12, 0x34, 0xB5, 0x33].set 4 0x35) with
          buffer := [],
          crcError :=
            (initState false 1 ([1, 3, 2, 0x12, 0x34, 0xB5, 0x33].set 4 0x35)).crcError + 1 },
       false, [1, 3, 2, 0x12, 0x34, 0xB5, 0x33].set 4 0x35) :=
  (@claim_C2 (initState false 1 ([1, 3, 2, 0x12, 0x34, 0xB5, 0x33].set 4 0x35))
      [1, 3, 2, 0x12, 0x34, 0xB5, 0x33] rfl (by decide) (by decide) (by decide)
      (by decide) (by decide) (by decide)).2.2 4 0x35 (by decide) (by decide) (by decide)
      (by decide) rfl

theorem GetExceptionString_fields (s : MbState) (code : Nat) :
    (GetExceptionString s code).1.buffer = s.buffer ∧
    (GetExceptionString s code).1.rxPacketCount = s.rxPacketCount ∧
    (GetExceptionString s code).1.modbusException = s.modbusException ∧
    (GetExceptionString s code).1.crcError = s.crcError := by
  unfold GetExceptionString
  dsimp only
  refine ⟨?_, ?_, ?_, ?_⟩
  · simp only [apply_ite MbState.buffer, ite_self]
  · simp only [apply_ite MbState.rxPacketCount, ite_self]
  · simp only [apply_ite MbState.modbusException, ite_self]
  · simp only [apply_ite MbState.crcError, ite_self]

theorem GetExceptionString_counter {code : Nat} (hmem : code ∈ exceptionCodes)
    (s : MbState) :
    excepCounter code (GetExceptionString s code).1 = excepCounter code s + 1 := by
  have h10 : code = 1 ∨ code = 2 ∨ code = 3 ∨ code = 4 ∨ code = 5 ∨ code = 6 ∨
      code = 7 ∨ code = 8 ∨ code = 10 ∨ code = 11 := by
    simpa [exceptionCodes, MBUS_EXCEP_FUNCTION, MBUS_EXCEP_ADDRESS, MBUS_EXCEP_DATA,
      MBUS_EXCEP_SLAVE_FAIL, MBUS_EXCEP_ACK, MBUS_EXCEP_BUSY, MBUS_EXCEP_NACK,
      MBUS_EXCEP_MEM_PE, MBUS_EXCEP_GATEWAY, MBUS_EXCEP_GATEWAY_TG] using hmem
  rcases h10 with h | h | h | h | h | h | h | h | h | h <;> subst h <;> rfl

theorem gpsBody_exception_rtu {s : MbState} (hts : s.modbusTCP = false)
    (hlen : 5 ≤ s.buffer.length)
    (haddr : CheckResponseAddress s (s.buffer.getD 0 0) = true)
    (herr : s.buffer.getD 1 0 &&& 128 ≠ 0) (ovr : Option Nat) :
    gpsBody s ovr =
      if CheckCRC { s with buffer := s.buffer.drop 5 } (s.buffer.take 5) then
        ((GetExceptionString { s with
            buffer := s.buffer.drop 5,
            rxPacketCount := s.rxPacketCount + 1,
            modbusException := s.modbusException + 1 }
          ((s.buffer.take 5).getD 2 0)).1, false, s.buffer.take 5)
      else
        ({ s with buffer := s.buffer.drop 5, crcError := s.crcError + 1 }, false,
         s.buffer.take 5) := by
  unfold gpsBody
  rw [hts]
  simp only [MBUS_OFF_ADDRESS, MBUS_OFF_COMMAND, MBUS_OFF_EXCEPTION,
    MIN_PACKET_ERR_LENGTH, MBUS_ERROR_BIT, Bool.false_eq_true, if_false]
  rw [if_neg (by simpa using haddr)]
  rw [if_neg (by omega)]
  rw [if_pos (by simpa using herr)]



theorem excepCounter_congr (code : Nat) (s t : MbState)
    (h1 : t.excepFunction = s.excepFunction) (h2 : t.excepAddress = s.excepAddress)
    (h3 : t.excepData = s.excepData) (h4 : t.excepSlave = s.excepSlave)
    (h5 : t.excepAck = s.excepAck) (h6 : t.excepBusy = s.excepBusy)
    (h7 : t.excepNack = s.excepNack) (h8 : t.excepMemPe = s.excepMemPe)
    (h9 : t.excepGateway = s.excepGateway) (h10 : t.excepGateWayTg = s.excepGateWayTg) :
    excepCounter code t = excepCounter code s := by
  simp only [excepCounter, h1, h2, h3, h4, h5, h6, h7, h8, h9, h10]

/-- C6: in RTU mode, when the buffered response's function-code byte has bit
0x80 set and at least the 5-byte error-frame length is buffered,
`GetPacketFromSlave` consumes exactly 5 bytes and returns Rejected; when the
consumed exception frame's CRC is valid, the overall Modbus-exception counter
and the per-code exception counter selected by the exception-code byte are
each incremented by 1 (CRC-error counter untouched); when the CRC is invalid
the CRC-error counter is incremented instead. -/
theorem claim_C6 {s : MbState} (hts : s.modbusTCP = false)
    (hlen : 5 ≤ s.buffer.length)
    (haddr : CheckResponseAddress s (s.buffer.getD 0 0) = true)
    (herr : s.buffer.getD 1 0 &&& 0x80 ≠ 0) :
    (GetPacketFromSlave s none).2.1 = false ∧
    (GetPacketFromSlave s none).2.2 = s.buffer.take 5 ∧
    (GetPacketFromSlave s none).1.buffer = s.buffer.drop 5 ∧
    (CheckCRC s (s.buffer.take 5) = true →
      (GetPacketFromSlave s none).1.modbusException = s.modbusException + 1 ∧
      (GetPacketFromSlave s none).1.rxPacketCount = s.rxPacketCount + 1 ∧
      (GetPacketFromSlave s none).1.crcError = s.crcError ∧
      (s.buffer.getD 2 0 ∈ exceptionCodes →
        excepCounter (s.buffer.getD 2 0) (GetPacketFromSlave s none).1 =
          excepCounter (s.buffer.getD 2 0) s + 1)) ∧
    (CheckCRC s (s.buffer.take 5) = false →
      (GetPacketFromSlave s none).1.crcError = s.crcError + 1 ∧
      (GetPacketFromSlave s none).1.modbusException = s.modbusException) := by
  have h0 : s.buffer ≠ [] := List.ne_nil_of_length_pos (by omega)
  have hg2 : (s.buffer.take 5).getD 2 0 = s.buffer.getD 2 0 := getD_take_lt (by omega)
  rw [gps_rtu hts h0, gpsBody_exception_rtu hts hlen haddr herr none, hg2]
  have hcc : CheckCRC { s with buffer := s.buffer.drop 5 } (s.buffer.take 5) =
      CheckCRC s (s.buffer.take 5) := checkCRC_tcp_congr rfl _
  by_cases hc : CheckCRC s (s.buffer.take 5) = true
  · rw [if_pos (by rw [hcc]; exact hc)]
    obtain ⟨hf1, hf2, hf3, hf4⟩ := GetExceptionString_fields
      { s with
        buffer := s.buffer.drop 5,
        rxPacketCount := s.rxPacketCount + 1,
        modbusException := s.modbusException + 1 } (s.buffer.getD 2 0)
    refine ⟨rfl, rfl, hf1, ?_, ?_⟩
    · intro _
      refine ⟨hf3, hf2, hf4, ?_⟩
      intro hmem
      rw [GetExceptionString_counter hmem]
      exact congrArg (· + 1)
        (excepCounter_congr _ _ _ rfl rfl rfl rfl rfl rfl rfl rfl rfl rfl)
    · intro hfalse
      rw [hc] at hfalse
      cases hfalse
  · rw [if_neg (by rw [hcc]; exact hc)]
    refine ⟨rfl, rfl, rfl, ?_, ?_⟩
    · intro htrue
      exact absurd htrue hc
    · intro _
      exact ⟨rfl, rfl⟩



/-- C6 witness: the CRC-valid exception frame `[01 83 02 C0 F1]`
(Illegal Address) is consumed and Rejected, with the Modbus-exception counter
and the Illegal-Address counter each going from 0 to 1. -/
theorem claim_C6_witness :
    (GetPacketFromSlave (initState false 1 [1, 0x83, 2, 0xC0, 0xF1]) none).2.1 = false ∧
    (GetPacketFromSlave (initState false 1 [1, 0x83, 2, 0xC0, 0xF1]) none).1.modbusException
      = 1 ∧
    excepCounter 2
      (GetPacketFromSlave (initState false 1 [1, 0x83, 2, 0xC0, 0xF1]) none).1 = 1 ∧
    (GetPacketFromSlave (initState false 1 [1, 0x83, 2, 0xC0, 0xF1]) none).1.buffer = [] := by
  have h := claim_C6 (s := initState false 1 [1, 0x83, 2, 0xC0, 0xF1]) rfl (by decide)
    (by decide) (by decide)
  have hcrc : CheckCRC (initState false 1 [1, 0x83, 2, 0xC0, 0xF1])
      ([1, 0x83, 2, 0xC0, 0xF1].take 5) = true := by decide
  obtain ⟨hb1, -, hbuf, himp, -⟩ := h
  obtain ⟨hm, -, -, hcnt⟩ := himp hcrc
  exact ⟨hb1, hm, hcnt (by decide), hbuf⟩

theorem gpsBody_cases (s1 : MbState) (ovr : Option Nat) :
    gpsBody s1 ovr = (s1, true, []) ∨ (gpsBody s1 ovr).2.1 = false ∨
      (gpsBody s1 ovr).2.2 ≠ [] := by
  have hep : 3 ≤ MIN_PACKET_ERR_LENGTH s1.modbusTCP := by
    unfold MIN_PACKET_ERR_LENGTH; split <;> omega
  have hrp : 3 ≤ MBUS_RES_PAYLOAD_SIZE_MINUS_LENGTH s1.modbusTCP := by
    unfold MBUS_RES_PAYLOAD_SIZE_MINUS_LENGTH; split <;> omega
  have hfp : 3 ≤ MBUS_FILE_READ_PAYLOAD_SIZE_MINUS_LENGTH s1.modbusTCP := by
    unfold MBUS_FILE_READ_PAYLOAD_SIZE_MINUS_LENGTH; split <;> omega
  have hwr : (0 : Nat) < MIN_PACKET_MIN_WRITE_RESPONSE_LENGTH := by
    unfold MIN_PACKET_MIN_WRITE_RESPONSE_LENGTH; omega
  simp only [gpsBody]
  by_cases c1 : CheckResponseAddress s1 (s1.buffer.getD MBUS_OFF_ADDRESS 0) = true
  case neg =>
    rw [if_pos (by simpa using c1)]
    exact Or.inr (Or.inl rfl)
  rw [if_neg (by simpa using c1)]
  by_cases c2 : s1.buffer.length < MIN_PACKET_ERR_LENGTH s1.modbusTCP
  · rw [if_pos c2]; exact Or.inl rfl
  rw [if_neg c2]
  by_cases c3 : s1.buffer.getD MBUS_OFF_COMMAND 0 &&& MBUS_ERROR_BIT ≠ 0
  · rw [if_pos c3]
    by_cases c4 : CheckCRC
        { s1 with buffer := s1.buffer.drop (MIN_PACKET_ERR_LENGTH s1.modbusTCP) }
        (s1.buffer.take (MIN_PACKET_ERR_LENGTH s1.modbusTCP)) = true
    · rw [if_pos c4]; exact Or.inr (Or.inl rfl)
    · rw [if_neg c4]; exact Or.inr (Or.inl rfl)
  rw [if_neg c3]
  by_cases c5 : s1.buffer.length <
      (match ovr with
        | some m => m
        | none => MIN_PACKET_RESPONSE_LENGTH s1.modbusTCP)
  · rw [if_pos c5]; exact Or.inl rfl
  rw [if_neg c5]
  by_cases c6 : s1.buffer.getD MBUS_OFF_COMMAND 0 = MBUS_CMD_READ_HOLDING_REGS ∨
      s1.buffer.getD MBUS_OFF_COMMAND 0 = MBUS_CMD_READ_INPUT_REGS ∨
      s1.buffer.getD MBUS_OFF_COMMAND 0 = MBUS_CMD_READ_COILS
  · rw [if_pos c6]
    by_cases c7 : s1.buffer.getD MBUS_OFF_RESPONSE_LEN 0 +
        MBUS_RES_PAYLOAD_SIZE_MINUS_LENGTH s1.modbusTCP > s1.buffer.length
    · rw [if_pos c7]; exact Or.inl rfl
    rw [if_neg c7]
    by_cases c8 : CheckCRC
        { s1 with buffer := s1.buffer.drop (s1.buffer.getD MBUS_OFF_RESPONSE_LEN 0 +
            MBUS_RES_PAYLOAD_SIZE_MINUS_LENGTH s1.modbusTCP) }
        (s1.buffer.take (s1.buffer.getD MBUS_OFF_RESPONSE_LEN 0 +
            MBUS_RES_PAYLOAD_SIZE_MINUS_LENGTH s1.modbusTCP)) = true
    · rw [if_pos c8]
      refine Or.inr (Or.inr ?_)
      intro hnil
      have hl := congrArg List.length hnil
      rw [List.length_take, List.length_nil] at hl
      omega
    · rw [if_neg c8]; exact Or.inr (Or.inl rfl)
  rw [if_neg c6]
  by_cases c9 : s1.buffer.getD MBUS_OFF_COMMAND 0 = MBUS_CMD_WRITE_REGS ∨
      s1.buffer.getD MBUS_OFF_COMMAND 0 = MBUS_CMD_WRITE_COILS
  · rw [if_pos c9]
    by_cases c10 : s1.buffer.length < MIN_PACKET_MIN_WRITE_RESPONSE_LENGTH
    · rw [if_pos c10]; exact Or.inl rfl
    rw [if_neg c10]
    by_cases c11 : CheckCRC
        { s1 with buffer := s1.buffer.drop MIN_PACKET_MIN_WRITE_RESPONSE_LENGTH }
        (s1.buffer.take MIN_PACKET_MIN_WRITE_RESPONSE_LENGTH) = true
    · rw [if_pos c11]
      refine Or.inr (Or.inr ?_)
      intro hnil
      have hl := congrArg List.length hnil
      rw [List.length_take, List.length_nil] at hl
      omega
    · rw [if_neg c11]; exact Or.inr (Or.inl rfl)
  rw [if_neg c9]
  by_cases c12 : s1.buffer.getD MBUS_OFF_COMMAND 0 = MBUS_CMD_WRITE_COIL ∨
      s1.buffer.getD MBUS_OFF_COMMAND 0 = MBUS_CMD_WRITE_REG
  · rw [if_pos c12]
    by_cases c13 : s1.buffer.length < MBUS_SINGLE_WRITE_RES_LENGTH
    · rw [if_pos c13]; exact Or.inl rfl
    rw [if_neg c13]
    by_cases c14 : CheckCRC
        { s1 with buffer := s1.buffer.drop MIN_PACKET_MIN_WRITE_RESPONSE_LENGTH }
        (s1.buffer.take MIN_PACKET_MIN_WRITE_RESPONSE_LENGTH) = true
    · rw [if_pos c14]
      refine Or.inr (Or.inr ?_)
      intro hnil
      have hl := congrArg List.length hnil
      rw [List.length_take, List.length_nil] at hl
      omega
    · rw [if_neg c14]; exact Or.inr (Or.inl rfl)
  rw [if_neg c12]
  by_cases c15 : s1.buffer.getD MBUS_OFF_COMMAND 0 = MBUS_CMD_READ_FILE
  · rw [if_pos c15]
    rcases hft : s1.buffer[MBUS_OFF_FILE_TYPE]? with - | ft
    · simp [hft]
    simp only [hft]
    by_cases c16 : ft ≠ MBUS_FILE_TYPE_VALUE
    · rw [if_pos c16]; exact Or.inr (Or.inl rfl)
    rw [if_neg c16]
    by_cases c17 : s1.buffer.getD MBUS_OFF_RESPONSE_LEN 0 +
        MBUS_FILE_READ_PAYLOAD_SIZE_MINUS_LENGTH s1.modbusTCP > s1.buffer.length
    · rw [if_pos c17]; exact Or.inl rfl
    rw [if_neg c17]
    by_cases c18 : CheckCRC { s1 with buffer := ([] : List Nat) } s1.buffer = true
    · rw [if_pos c18]
      refine Or.inr (Or.inr ?_)
      show s1.buffer ≠ []
      intro hnil
      have hl := congrArg List.length hnil
      rw [List.length_nil] at hl
      omega
    · rw [if_neg c18]; exact Or.inr (Or.inl rfl)
  rw [if_neg c15]
  by_cases c19 : s1.buffer.getD MBUS_OFF_COMMAND 0 = MBUS_CMD_WRITE_FILE
  · rw [if_pos c19]
    rcases hft : s1.buffer[MBUS_OFF_WRITE_FILE_TYPE]? with - | ft
    · simp [hft]
    simp only [hft]
    by_cases c20 : ft ≠ MBUS_FILE_TYPE_VALUE
    · rw [if_pos c20]; exact Or.inr (Or.inl rfl)
    rw [if_neg c20]
    by_cases c21 : s1.buffer.getD MBUS_OFF_RESPONSE_LEN 0 +
        MBUS_FILE_READ_PAYLOAD_SIZE_MINUS_LENGTH s1.modbusTCP > s1.buffer.length
    · rw [if_pos c21]; exact Or.inl rfl
    rw [if_neg c21]
    by_cases c22 : CheckCRC { s1 with buffer := ([] : List Nat) } s1.buffer = true
    · rw [if_pos c22]
      refine Or.inr (Or.inr ?_)
      show s1.buffer ≠ []
      intro hnil
      have hl := congrArg List.length hnil
      rw [List.length_nil] at hl
      omega
    · rw [if_neg c22]; exact Or.inr (Or.inl rfl)
  rw [if_neg c19]
  exact Or.inr (Or.inl rfl)



theorem gpsHeader_cases (s : MbState) :
    gpsHeader s = .inr s ∨
    gpsHeader s = .inl (s, true, []) ∨
    (∃ r, gpsHeader s = .inl r ∧ r.2.1 = false) ∨
    (s.modbusTCP = true ∧
      gpsHeader s = .inr { s with buffer := s.buffer.drop MODBUS_TCP_HEADER_SIZE }) := by
  simp only [gpsHeader]
  by_cases ht : s.modbusTCP = true
  case neg =>
    rw [if_neg ht]
    exact Or.inl rfl
  rw [if_pos ht]
  by_cases c1 : s.buffer.length < MIN_PACKET_ERR_LENGTH true + MODBUS_TCP_HEADER_SIZE
  · rw [if_pos c1]; exact Or.inr (Or.inl rfl)
  rw [if_neg c1]
  by_cases c2 : s.currentTransactionID ≠
      (s.buffer.getD 0 0 <<< 8 ||| (s.buffer.getD 1 0 &&& 0xFF))
  · rw [if_pos c2]; exact Or.inr (Or.inr (Or.inl ⟨_, rfl, rfl⟩))
  rw [if_neg c2]
  by_cases c3 : s.buffer.getD 2 0 ≠ 0 ∨ s.buffer.getD 3 0 ≠ 0
  · rw [if_pos c3]; exact Or.inr (Or.inr (Or.inl ⟨_, rfl, rfl⟩))
  rw [if_neg c3]
  by_cases c4 : (s.buffer.drop 6).length ≠
      (s.buffer.getD 4 0 <<< 8 ||| (s.buffer.getD 5 0 &&& 0xFF))
  · rw [if_pos c4]; exact Or.inr (Or.inl rfl)
  · rw [if_neg c4]; exact Or.inr (Or.inr (Or.inr ⟨ht, rfl⟩))

/-- C3 (amended): whenever `GetPacketFromSlave` returns NeedMoreData (success
flag true with an empty packet), the inbound buffer is unchanged in RTU mode;
in Modbus-TCP mode it is either unchanged or exactly the 6-byte MBAP header
has been consumed (this happens when the full TCP payload per the header's
length field has arrived but the remaining payload is still shorter than the
frame the body parser needs).  The original claim — no bytes removed in
either mode — fails in TCP mode; see the counterexample. -/
theorem claim_C3 (s : MbState) (ovr : Option Nat)
    (h1 : (GetPacketFromSlave s ovr).2.1 = true)
    (h2 : (GetPacketFromSlave s ovr).2.2 = []) :
    (s.modbusTCP = false → (GetPacketFromSlave s ovr).1.buffer = s.buffer) ∧
    ((GetPacketFromSlave s ovr).1.buffer = s.buffer ∨
      (s.modbusTCP = true ∧
        (GetPacketFromSlave s ovr).1.buffer = s.buffer.drop 6)) := by
  unfold GetPacketFromSlave at h1 h2 ⊢
  by_cases hb : s.buffer.length = 0
  · rw [if_pos hb]
    exact ⟨fun _ => rfl, Or.inl rfl⟩
  rw [if_neg hb] at h1 h2 ⊢
  rcases gpsHeader_cases s with hc | hc | ⟨r, hc, hr⟩ | ⟨ht, hc⟩ <;>
    simp only [hc] at h1 h2 ⊢
  · rcases gpsBody_cases s ovr with hg | hg | hg
    · rw [hg]; exact ⟨fun _ => rfl, Or.inl rfl⟩
    · rw [h1] at hg; exact absurd hg (by simp)
    · exact absurd h2 hg
  · simp
  · rw [h1] at hr; exact absurd hr (by simp)
  · rcases gpsBody_cases { s with buffer := s.buffer.drop MODBUS_TCP_HEADER_SIZE } ovr
      with hg | hg | hg
    · rw [hg]
      refine ⟨fun hf => ?_, Or.inr ⟨ht, rfl⟩⟩
      rw [ht] at hf
      exact absurd hf (by simp)
    · rw [h1] at hg; exact absurd hg (by simp)
    · exact absurd h2 hg

/-- C3 counterexample: in Modbus-TCP mode, with a matching transaction ID,
zero protocol ID, declared TCP length 3 and exactly that payload buffered
(`[00 00 00 00 00 03 01 03 09]`), the parser strips the 6-byte MBAP header
and then — because 3 bytes are fewer than the minimum response length —
returns NeedMoreData: success with the empty packet, yet 6 bytes have been
removed from the inbound buffer, contradicting the claim. -/
theorem claim_C3_counterexample :
    (GetPacketFromSlave (initState true 1 [0, 0, 0, 0, 0, 3, 1, 3, 9]) none).2.1 = true ∧
    (GetPacketFromSlave (initState true 1 [0, 0, 0, 0, 0, 3, 1, 3, 9]) none).2.2 = [] ∧
    (GetPacketFromSlave (initState true 1 [0, 0, 0, 0, 0, 3, 1, 3, 9]) none).1.buffer =
      [1, 3, 9] ∧
    (GetPacketFromSlave (initState true 1 [0, 0, 0, 0, 0, 3, 1, 3, 9]) none).1.buffer ≠
      (initState true 1 [0, 0, 0, 0, 0, 3, 1, 3, 9]).buffer := by
  refine ⟨?_, ?_, ?_, ?_⟩ <;> decide

/-- C3 witness: `claim_C3` applied to an RTU state holding a single buffered
byte equal to the slave address: the parser reports NeedMoreData and the
buffer is untouched. -/
theorem claim_C3_witness :
    ((initState false 1 [1]).modbusTCP = false →
      (GetPacketFromSlave (initState false 1 [1]) none).1.buffer =
        (initState false 1 [1]).buffer) ∧
    ((GetPacketFromSlave (initState false 1 [1]) none).1.buffer =
        (initState false 1 [1]).buffer ∨
      ((initState false 1 [1]).modbusTCP = true ∧
        (GetPacketFromSlave (initState false 1 [1]) none).1.buffer =
          (initState false 1 [1]).buffer.drop 6)) :=
  claim_C3 (initState false 1 [1]) none (by decide) (by decide)

theorem and_ff00_shr8 {x : Nat} (h : x < 65536) : (x &&& 0xFF00) >>> 8 = x / 256 := by
  have h2 : x >>> 8 = x / 256 := by
    rw [Nat.shiftRight_eq_div_pow]
  rw [← h2]
  apply Nat.eq_of_testBit_eq
  intro i
  rw [Nat.testBit_shiftRight, Nat.testBit_shiftRight, Nat.testBit_and]
  by_cases hi : i < 8
  · have hbit : (0xFF00 : Nat).testBit (8 + i) = true := by
      interval_cases i <;> decide
    simp [hbit]
  · have hx : x.testBit (8 + i) = false := by
      apply Nat.testBit_lt_two_pow
      calc x < 65536 := h
        _ ≤ 2 ^ (8 + i) := by
          have : (65536 : Nat) = 2 ^ 16 := by norm_num
          rw [this]
          exact Nat.pow_le_pow_right (by norm_num) (by omega)
    simp [hx]

theorem dropLast_twice_length (packet : List Nat) :
    packet.dropLast.dropLast.length = packet.length - 2 := by
  simp [List.length_dropLast]
  omega

/-- C5: in Modbus-TCP mode `ConvertToModbusModbusTCP` strips the trailing
2-byte CRC and prepends an MBAP header whose big-endian length field equals
the number of bytes following it, and whose transaction ID is the freshly
issued ID; the ID counter then advances by 1 wrapping past 0xFFFF to 0, and
the issued ID is recorded as the in-flight `CurrentTransactionID`.
`GetPacketFromSlave` rejects a buffered response whose leading transaction ID
differs from the most recently issued ID, and one whose protocol ID field is
non-zero (discarding a byte and flushing in both cases). -/
theorem claim_C5 :
    (∀ (s : MbState) (packet : List Nat), s.modbusTCP = true →
      s.transactionID ≤ 0xFFFF → 2 ≤ packet.length → packet.length ≤ 0xFFFF + 2 →
      ConvertToModbusModbusTCP s packet =
        ({ s with
            currentTransactionID := s.transactionID,
            transactionID := (s.transactionID + 1) % 0x10000 },
          [(s.transactionID &&& 0xFF00) >>> 8, s.transactionID &&& 0xFF, 0, 0,
           ((packet.length - 2) &&& 0xFF00) >>> 8, (packet.length - 2) &&& 0xFF] ++
            packet.dropLast.dropLast) ∧
      ((s.transactionID &&& 0xFF00) >>> 8) * 256 + (s.transactionID &&& 0xFF) =
        s.transactionID ∧
      (((packet.length - 2) &&& 0xFF00) >>> 8) * 256 + ((packet.length - 2) &&& 0xFF) =
        packet.length - 2 ∧
      packet.dropLast.dropLast.length = packet.length - 2) ∧
    (∀ s : MbState, s.modbusTCP = true → 9 ≤ s.buffer.length →
      (s.buffer.getD 0 0 <<< 8 ||| (s.buffer.getD 1 0 &&& 0xFF)) ≠ s.currentTransactionID →
      GetPacketFromSlave s none = (Flush (DiscardByte s), false, [])) ∧
    (∀ s : MbState, s.modbusTCP = true → 9 ≤ s.buffer.length →
      (s.buffer.getD 0 0 <<< 8 ||| (s.buffer.getD 1 0 &&& 0xFF)) = s.currentTransactionID →
      (s.buffer.getD 2 0 ≠ 0 ∨ s.buffer.getD 3 0 ≠ 0) →
      GetPacketFromSlave s none = (Flush (DiscardByte s), false, [])) := by
  refine ⟨?_, ?_, ?_⟩
  · intro s packet hts htid hlen2 hlenmax
    have hwrap : (if s.transactionID + 1 > 0xFFFF then 0 else s.transactionID + 1) =
        (s.transactionID + 1) % 0x10000 := by
      by_cases hb : s.transactionID + 1 > 0xFFFF
      · rw [if_pos hb]; omega
      · rw [if_neg hb]; omega
    have hdd : packet.dropLast.dropLast.length = packet.length - 2 :=
      dropLast_twice_length packet
    refine ⟨?_, ?_, ?_, hdd⟩
    · unfold ConvertToModbusModbusTCP GetTransactionID
      rw [if_neg (by simp [hts])]
      rw [if_pos hlen2]
      simp only [hdd, hwrap]
    · have h1 := and_ff00_shr8 (x := s.transactionID) (by omega)
      have h2 := and_255_eq_mod s.transactionID
      rw [h1, h2]
      omega
    · have h1 := and_ff00_shr8 (x := packet.length - 2) (by omega)
      have h2 := and_255_eq_mod (packet.length - 2)
      rw [h1, h2]
      omega
  · intro s hts hlen hne
    unfold GetPacketFromSlave
    rw [if_neg (by omega)]
    simp only [gpsHeader]
    rw [if_pos hts, if_neg (by
      simp only [show MIN_PACKET_ERR_LENGTH true = 3 from rfl,
        show MODBUS_TCP_HEADER_SIZE = 6 from rfl]
      omega)]
    rw [if_pos (fun hc => hne hc.symm)]
  · intro s hts hlen heq hproto
    unfold GetPacketFromSlave
    rw [if_neg (by omega)]
    simp only [gpsHeader]
    rw [if_pos hts, if_neg (by
      simp only [show MIN_PACKET_ERR_LENGTH true = 3 from rfl,
        show MODBUS_TCP_HEADER_SIZE = 6 from rfl]
      omega)]
    rw [if_neg (by simp [heq.symm])]
    rw [if_pos hproto]



/-- C5 witness: wrapping the read request `[01 03 00 00 00 01 84 0A]` with
transaction ID 0xFFFF yields header `FF FF 00 00 00 06` and the CRC-stripped
body, the counter wraps to 0; a response with transaction ID 0x0100 against
in-flight ID 0 is rejected, as is one with protocol ID bytes `00 01`. -/
theorem claim_C5_witness :
    (ConvertToModbusModbusTCP ({ initState true 1 [] with transactionID := 0xFFFF })
        [1, 3, 0, 0, 0, 1, 0x84, 0x0A]).2 =
      [0xFF, 0xFF, 0, 0, 0, 6, 1, 3, 0, 0, 0, 1] ∧
    (ConvertToModbusModbusTCP ({ initState true 1 [] with transactionID := 0xFFFF })
        [1, 3, 0, 0, 0, 1, 0x84, 0x0A]).1.transactionID = 0 ∧
    GetPacketFromSlave (initState true 1 [1, 0, 0, 0, 0, 3, 1, 3, 9]) none =
      (Flush (DiscardByte (initState true 1 [1, 0, 0, 0, 0, 3, 1, 3, 9])), false, []) ∧
    GetPacketFromSlave (initState true 1 [0, 0, 1, 0, 0, 3, 1, 3, 9]) none =
      (Flush (DiscardByte (initState true 1 [0, 0, 1, 0, 0, 3, 1, 3, 9])), false, []) := by
  obtain ⟨h1, h2, h3⟩ := claim_C5
  have ha := h1 ({ initState true 1 [] with transactionID := 0xFFFF })
    [1, 3, 0, 0, 0, 1, 0x84, 0x0A] rfl (by decide) (by decide) (by decide)
  refine ⟨?_, ?_, ?_, ?_⟩
  · rw [ha.1]; decide
  · rw [ha.1]; decide
  · exact h2 (initState true 1 [1, 0, 0, 0, 0, 3, 1, 3, 9]) rfl (by decide) (by decide)
  · exact h3 (initState true 1 [0, 0, 1, 0, 0, 3, 1, 3, 9]) rfl (by decide) (by decide)
      (by decide)

theorem hexAndText_snd (p : List Nat) :
    (hexAndText p).2 = String.mk ((p.filter (fun b => b ≠ 0)).map Char.ofNat) := by
  suffices h : ∀ a b : String,
      (p.foldl (fun acc x =>
          (acc.1 ++ fmtHex 2 x,
           if x ≠ 0 then acc.2 ++ String.mk [Char.ofNat x] else acc.2)) (a, b)).2 =
        b ++ String.mk ((p.filter (fun x => x ≠ 0)).map Char.ofNat) by
    have h2 := h "" ""
    simpa [hexAndText] using h2
  induction p with
  | nil => intro a b; simp
  | cons x t ih =>
    intro a b
    simp only [List.foldl_cons, List.filter_cons]
    by_cases hx : x ≠ 0
    · simp only [if_pos hx]
      rw [ih]
      simp [hx, String.append_assoc]
      try rfl
    · simp only [if_neg hx]
      simp only [ne_eq, not_not] at hx
      rw [ih]
      simp [hx]

theorem URFP_read_rtu_skip {upd : Option UpdateFn} {s : MbState}
    {master slave : List Nat} {c : Nat} (hts : s.modbusTCP = false)
    (hml : 6 ≤ master.length) (hsl : 6 ≤ slave.length)
    (hmaddr : master.getD 0 0 = s.address)
    (hsaddr : CheckResponseAddress s (slave.getD 0 0) = true)
    (hmc : master.getD 1 0 = c) (hsc : slave.getD 1 0 = c)
    (hc3 : c = 3 ∨ c = 4 ∨ c = 1)
    (hlen : slave.getD 2 0 + 5 ≤ slave.length) (returnString : Bool) :
    URFP upd s master slave true returnString =
      (s, if returnString then (hexAndText ((slave.drop 3).take (slave.getD 2 0))).2
          else (hexAndText ((slave.drop 3).take (slave.getD 2 0))).1) := by
  have h0 : master[(0 : Nat)]? = some (master.getD 0 0) := by
    rw [List.getD_eq_getElem master 0 (by omega)]
    exact List.getElem?_eq_getElem (by omega)
  have h1 : master[(1 : Nat)]? = some (master.getD 1 0) := by
    rw [List.getD_eq_getElem master 0 (by omega)]
    exact List.getElem?_eq_getElem (by omega)
  simp only [URFP, hts, Bool.false_eq_true, if_false,
    show MIN_PACKET_RESPONSE_LENGTH false = 6 from rfl,
    show MBUS_OFF_ADDRESS = 0 from rfl, show MBUS_OFF_COMMAND = 1 from rfl,
    show MBUS_OFF_RESPONSE_LEN = 2 from rfl,
    show MBUS_RES_PAYLOAD_SIZE_MINUS_LENGTH false = 5 from rfl,
    Nat.add_zero, Nat.zero_add]
  rw [if_neg (by omega)]
  simp only [h0, h1]
  rw [if_neg (by simpa using hmaddr)]
  rw [if_neg (by simpa using hsaddr)]
  rw [if_neg (by
    simp only [not_not]
    rw [hsc]
    rcases hc3 with h | h | h <;> subst h <;> decide)]
  rw [if_neg (by
    simp only [not_not]
    rw [hmc]
    rcases hc3 with h | h | h <;> subst h <;> decide)]
  rw [if_neg (by rw [hmc, hsc]; simp)]
  rw [if_neg (by
    rintro ⟨hor, -⟩
    rw [hmc] at hor
    rcases hc3 with h | h | h <;> subst h <;>
      simp [MBUS_CMD_WRITE_REGS, MBUS_CMD_WRITE_FILE] at hor)]
  rw [if_pos (by
    rw [hmc]
    rcases hc3 with h | h | h <;> subst h <;> simp [MBUS_CMD_READ_HOLDING_REGS,
      MBUS_CMD_READ_INPUT_REGS, MBUS_CMD_READ_COILS])]
  rw [if_neg (by omega)]
  rw [if_neg (by simp)]
  cases returnString <;> rfl



/-- C7 (amended): with `returnAsText` true on a successful RTU read response
(`SkipUpdate` set), the value returned by `_URFP` is the ASCII string formed
from the non-NUL payload bytes in order: each zero byte contributes nothing,
but bytes after a zero byte still contribute their characters.  (The original
claim — truncation at the first NUL — fails; see the counterexample.) -/
theorem claim_C7 {upd : Option UpdateFn} {s : MbState} {master slave : List Nat}
    {c : Nat} (hts : s.modbusTCP = false)
    (hml : 6 ≤ master.length) (hsl : 6 ≤ slave.length)
    (hmaddr : master.getD 0 0 = s.address)
    (hsaddr : CheckResponseAddress s (slave.getD 0 0) = true)
    (hmc : master.getD 1 0 = c) (hsc : slave.getD 1 0 = c)
    (hc3 : c = 3 ∨ c = 4 ∨ c = 1)
    (hlen : slave.getD 2 0 + 5 ≤ slave.length) :
    (URFP upd s master slave true true).2 =
      String.mk ((((slave.drop 3).take (slave.getD 2 0)).filter
        (fun b => b ≠ 0)).map Char.ofNat) := by
  rw [URFP_read_rtu_skip hts hml hsl hmaddr hsaddr hmc hsc hc3 hlen true]
  simp [hexAndText_snd]

/-- C7 counterexample: a read response with payload bytes `41 00 42 00`.
Truncation at the first NUL would return `"A"`; the code returns `"AB"`:
the NUL bytes are skipped but the byte after the first NUL still contributes
its character. -/
theorem claim_C7_counterexample :
    (URFP none (initState false 1 []) [1, 3, 0, 0, 0, 2, 0xC4, 0x0B]
        [1, 3, 4, 0x41, 0, 0x42, 0, 0xDE, 0xAF] true true).2 = "AB" ∧
    "AB" ≠ "A" := by
  constructor <;> decide

/-- C7 witness: `claim_C7` applied to the concrete payload `41 00 42 00`:
the text value equals the filter-the-NULs rendering of the payload. -/
theorem claim_C7_witness :
    (URFP none (initState false 1 []) [1, 3, 0, 0, 0, 2, 0xC4, 0x0B]
        [1, 3, 4, 0x41, 0, 0x42, 0, 0xDE, 0xAF] true true).2 =
      String.mk (((([1, 3, 4, 0x41, 0, 0x42, 0, 0xDE, 0xAF].drop 3).take 4).filter
        (fun b => b ≠ 0)).map Char.ofNat) :=
  claim_C7 (c := 3) rfl (by decide) (by decide) (by decide) (by decide) (by decide)
    (by decide) (by decide) (by decide)


/-- Inverse of `Nat.digitChar` on the sixteen hex digit characters. -/
def hexCharVal (c : Char) : Nat :=
  if c = '0' then 0 else if c = '1' then 1 else if c = '2' then 2
  else if c = '3' then 3 else if c = '4' then 4 else if c = '5' then 5
  else if c = '6' then 6 else if c = '7' then 7 else if c = '8' then 8
  else if c = '9' then 9 else if c = 'a' then 10 else if c = 'b' then 11
  else if c = 'c' then 12 else if c = 'd' then 13 else if c = 'e' then 14
  else if c = 'f' then 15 else 0

theorem hexCharVal_digitChar {d : Nat} (h : d < 16) :
    hexCharVal (Nat.digitChar d) = d := by
  interval_cases d <;> decide

theorem ofDigits_replicate_zero (k : Nat) :
    Nat.ofDigits 16 (List.replicate k (0 : Nat)) = 0 := by
  induction k with
  | zero => simp [Nat.ofDigits]
  | succ n ih => simp [List.replicate, Nat.ofDigits, ih]

theorem fmtHex4_decode {n : Nat} (_h : n < 65536) :
    Nat.ofDigits 16 (((fmtHex 4 n).data.map hexCharVal).reverse) = n := by
  unfold fmtHex
  have hmap : ((Nat.digits 16 n).reverse.map Nat.digitChar).map hexCharVal =
      (Nat.digits 16 n).reverse := by
    rw [List.map_map]
    have : ∀ d ∈ (Nat.digits 16 n).reverse, (hexCharVal ∘ Nat.digitChar) d = d := by
      intro d hd
      rw [List.mem_reverse] at hd
      exact hexCharVal_digitChar (Nat.digits_lt_base (by norm_num) hd)
    calc (Nat.digits 16 n).reverse.map (hexCharVal ∘ Nat.digitChar)
        = (Nat.digits 16 n).reverse.map id := List.map_congr_left this
      _ = (Nat.digits 16 n).reverse := List.map_id _
  simp only [List.map_append, List.map_replicate, List.reverse_append,
    List.reverse_replicate, hmap, List.reverse_reverse]
  have hzero : hexCharVal '0' = 0 := rfl
  rw [hzero, Nat.ofDigits_append, ofDigits_replicate_zero, Nat.ofDigits_digits]
  ring

theorem fmtHex4_inj {a b : Nat} (ha : a < 65536) (hb : b < 65536)
    (h : fmtHex 4 a = fmtHex 4 b) : a = b := by
  have h2 := congrArg (fun s => Nat.ofDigits 16 ((s.data.map hexCharVal).reverse)) h
  simp only at h2
  rw [fmtHex4_decode ha, fmtHex4_decode hb] at h2
  exact_mod_cast h2

theorem GetRegisterFromPacket_lt {packet : List Nat} (off : Nat)
    (hb : ∀ x ∈ packet, x < 256) : GetRegisterFromPacket packet off < 65536 := by
  have hff : ∀ l : Nat, l &&& 0xFF < 256 := by
    intro l
    have := Nat.and_le_right (n := l) (m := 0xFF)
    omega
  have hor : ∀ h l : Nat, h < 256 → (h <<< 8) ||| (l &&& 0xFF) < 65536 := by
    intro h l hh
    have h1 : h <<< 8 < 65536 := by
      rw [Nat.shiftLeft_eq]
      omega
    have h2 := hff l
    have := Nat.or_lt_two_pow (n := 16) (x := h <<< 8) (y := l &&& 0xFF)
      (by omega) (by omega)
    omega
  unfold GetRegisterFromPacket
  split
  · omega
  split
  · split
    · next h l hh hl =>
      exact hor h l (hb h (List.getElem?_mem hh))
    · omega
  · split
    · next h l hh hl =>
      exact hor h l (hb h (List.getElem?_mem hh))
    · omega


/-- C8 (amended): every request/response cross-check failure during value
extraction — request address not the engine's address, response address
failing the response-address check, function-code mismatch, or
register-address mismatch for multi-register and file writes — makes `_URFP`
return the sentinel `"Error"` with the engine state (in particular the
sync-error counter) unchanged.  The sync-error counter is not incremented on
these mismatches (see the counterexample); the caller counts the sentinel as
a validation error instead. -/
theorem claim_C8 {upd : Option UpdateFn} {s : MbState} {master slave : List Nat}
    (skipUpdate returnString : Bool) (hts : s.modbusTCP = false)
    (hml : 6 ≤ master.length) (hsl : 6 ≤ slave.length) :
    (master.getD 0 0 ≠ s.address →
      URFP upd s master slave skipUpdate returnString = (s, "Error")) ∧
    (master.getD 0 0 = s.address → CheckResponseAddress s (slave.getD 0 0) = false →
      URFP upd s master slave skipUpdate returnString = (s, "Error")) ∧
    (master.getD 0 0 = s.address → CheckResponseAddress s (slave.getD 0 0) = true →
      slave.getD 1 0 ∈ ValidCommands → master.getD 1 0 ∈ ValidCommands →
      master.getD 1 0 ≠ slave.getD 1 0 →
      URFP upd s master slave skipUpdate returnString = (s, "Error")) ∧
    ((∀ x ∈ master, x < 256) → (∀ x ∈ slave, x < 256) →
      master.getD 0 0 = s.address → CheckResponseAddress s (slave.getD 0 0) = true →
      (master.getD 1 0 = MBUS_CMD_WRITE_REGS ∨ master.getD 1 0 = MBUS_CMD_WRITE_FILE) →
      slave.getD 1 0 = master.getD 1 0 →
      GetRegisterFromPacket slave 0 ≠ GetRegisterFromPacket master 0 →
      URFP upd s master slave skipUpdate returnString = (s, "Error")) := by
  have h0 : master[(0 : Nat)]? = some (master.getD 0 0) := by
    rw [List.getD_eq_getElem master 0 (by omega)]
    exact List.getElem?_eq_getElem (by omega)
  have h1 : master[(1 : Nat)]? = some (master.getD 1 0) := by
    rw [List.getD_eq_getElem master 0 (by omega)]
    exact List.getElem?_eq_getElem (by omega)
  refine ⟨?_, ?_, ?_, ?_⟩
  · intro hma
    simp only [URFP, hts, Bool.false_eq_true, if_false,
      show MIN_PACKET_RESPONSE_LENGTH false = 6 from rfl,
      show MBUS_OFF_ADDRESS = 0 from rfl, show MBUS_OFF_COMMAND = 1 from rfl,
      Nat.add_zero, Nat.zero_add]
    rw [if_neg (by omega)]
    simp only [h0, h1]
    rw [if_pos hma]
  · intro hma hsa
    simp only [URFP, hts, Bool.false_eq_true, if_false,
      show MIN_PACKET_RESPONSE_LENGTH false = 6 from rfl,
      show MBUS_OFF_ADDRESS = 0 from rfl, show MBUS_OFF_COMMAND = 1 from rfl,
      Nat.add_zero, Nat.zero_add]
    rw [if_neg (by omega)]
    simp only [h0, h1]
    rw [if_neg (by simpa using hma)]
    rw [if_pos (by simpa using hsa)]
  · intro hma hsa hsv hmv hne
    simp only [URFP, hts, Bool.false_eq_true, if_false,
      show MIN_PACKET_RESPONSE_LENGTH false = 6 from rfl,
      show MBUS_OFF_ADDRESS = 0 from rfl, show MBUS_OFF_COMMAND = 1 from rfl,
      Nat.add_zero, Nat.zero_add]
    rw [if_neg (by omega)]
    simp only [h0, h1]
    rw [if_neg (by simpa using hma)]
    rw [if_neg (by simpa using hsa)]
    rw [if_neg (by simpa using hsv)]
    rw [if_neg (by simpa using hmv)]
    rw [if_pos hne]
  · intro hmb hsb hma hsa hcmd hsc hreg
    have hsv : slave.getD 1 0 ∈ ValidCommands := by
      rw [hsc]
      rcases hcmd with h | h <;> rw [h] <;> decide
    have hmv : master.getD 1 0 ∈ ValidCommands := by
      rcases hcmd with h | h <;> rw [h] <;> decide
    have hstr : fmtHex 4 (GetRegisterFromPacket slave 0) ≠
        fmtHex 4 (GetRegisterFromPacket master 0) := by
      intro hs
      exact hreg (fmtHex4_inj (GetRegisterFromPacket_lt 0 hsb)
        (GetRegisterFromPacket_lt 0 hmb) hs)
    simp only [URFP, hts, Bool.false_eq_true, if_false,
      show MIN_PACKET_RESPONSE_LENGTH false = 6 from rfl,
      show MBUS_OFF_ADDRESS = 0 from rfl, show MBUS_OFF_COMMAND = 1 from rfl,
      Nat.add_zero, Nat.zero_add]
    rw [if_neg (by omega)]
    simp only [h0, h1]
    rw [if_neg (by simpa using hma)]
    rw [if_neg (by simpa using hsa)]
    rw [if_neg (by simpa using hsv)]
    rw [if_neg (by simpa using hmv)]
    rw [if_neg (by rw [hsc]; simp)]
    rw [if_pos ⟨hcmd, hstr⟩]

/-- C8 counterexample: a read-holding-registers request paired with a
write-multiple-registers response (function-code mismatch).  The extraction
returns the sentinel `"Error"`, but the sync-error counter stays 0: the
claimed sync-error increment does not happen. -/
theorem claim_C8_counterexample :
    (URFP none (initState false 1 []) [1, 3, 0, 0, 0, 2, 0xC4, 0x0B]
        [1, 0x10, 0, 0, 0, 2, 0, 0] true false).2 = "Error" ∧
    (URFP none (initState false 1 []) [1, 3, 0, 0, 0, 2, 0xC4, 0x0B]
        [1, 0x10, 0, 0, 0, 2, 0, 0] true false).1.comSyncError = 0 := by
  constructor <;> decide

/-- C8 witness: `claim_C8` applied to the function-code-mismatch pair of the
counterexample: the extraction returns `"Error"` with the state unchanged. -/
theorem claim_C8_witness :
    URFP none (initState false 1 []) [1, 3, 0, 0, 0, 2, 0xC4, 0x0B]
        [1, 0x10, 0, 0, 0, 2, 0, 0] true false =
      (initState false 1 [], "Error") :=
  (claim_C8 true false rfl (by decide) (by decide)).2.2.1 (by decide) (by decide)
    (by decide) (by decide) (by decide)




theorem shr8_lt {n : Nat} (h : n ≤ 0xFFFF) : n >>> 8 < 256 := by
  rw [Nat.shiftRight_eq_div_pow]
  omega

theorem and255_lt (n : Nat) : n &&& 0xFF < 256 := by
  have := Nat.and_le_right (n := n) (m := 0xFF)
  omega

theorem packCoilStep_len (data : List Nat) (st : Nat × Nat × List Nat)
    (m : Nat) : ((packCoilStep data st m).2.2).length = st.2.2.length + 1 := by
  simp [packCoilStep]

theorem packCoil_foldl_length (data : List Nat) (k : Nat) :
    ∀ st : Nat × Nat × List Nat,
      (((List.range k).foldl (packCoilStep data) st).2.2).length =
        st.2.2.length + k := by
  induction k with
  | zero => intro st; rfl
  | succ n ih =>
    intro st
    rw [List.range_succ, List.foldl_append, List.foldl_cons, List.foldl_nil,
      packCoilStep_len, ih]
    omega

theorem packCoilData_length (data : List Nat) (k : Nat) :
    (packCoilData data k).length = k := by
  unfold packCoilData
  rw [packCoil_foldl_length]
  simp

theorem packCoilStep_lt (data : List Nat) (st : Nat × Nat × List Nat) (m : Nat)
    (h1 : st.1 < 256) (h2 : st.2.1 ≤ 7) (h3 : ∀ x ∈ st.2.2, x < 256) :
    (packCoilStep data st m).1 < 256 ∧ (packCoilStep data st m).2.1 ≤ 7 ∧
      ∀ x ∈ (packCoilStep data st m).2.2, x < 256 := by
  have hbv : (if m < (data.length + 1) / 2 ∧ m < data.length / 2 ∧
      data.getD (2 * m) 0 = 0 ∧ data.getD (2 * m + 1) 0 = 0 then 0 else 1) ≤ 1 := by
    split <;> omega
  have hsh : (if m < (data.length + 1) / 2 ∧ m < data.length / 2 ∧
      data.getD (2 * m) 0 = 0 ∧ data.getD (2 * m + 1) 0 = 0
      then 0 else 1) <<< st.2.1 < 256 := by
    rw [Nat.shiftLeft_eq]
    have hp : (2 : Nat) ^ st.2.1 ≤ 2 ^ 7 := Nat.pow_le_pow_right (by omega) h2
    have h8 := le_trans (Nat.mul_le_mul hbv hp) (by norm_num : 1 * 2 ^ 7 ≤ 128)
    omega
  have hor : st.1 ||| ((if m < (data.length + 1) / 2 ∧ m < data.length / 2 ∧
      data.getD (2 * m) 0 = 0 ∧ data.getD (2 * m + 1) 0 = 0
      then 0 else 1) <<< st.2.1) < 256 := by
    have := Nat.or_lt_two_pow (n := 8) (x := st.1)
      (y := (if m < (data.length + 1) / 2 ∧ m < data.length / 2 ∧
        data.getD (2 * m) 0 = 0 ∧ data.getD (2 * m + 1) 0 = 0
        then 0 else 1) <<< st.2.1) (by omega) (by omega)
    omega
  refine ⟨by simpa [packCoilStep] using hor, ?_, ?_⟩
  · simp only [packCoilStep]
    split <;> omega
  · intro x hx
    simp only [packCoilStep, List.mem_append, List.mem_cons,
      List.not_mem_nil, or_false] at hx
    rcases hx with hx | rfl
    · exact h3 x hx
    · simpa using hor

theorem packCoil_foldl_lt (data : List Nat) (k : Nat) :
    ∀ st : Nat × Nat × List Nat, st.1 < 256 → st.2.1 ≤ 7 →
      (∀ x ∈ st.2.2, x < 256) →
      ((List.range k).foldl (packCoilStep data) st).1 < 256 ∧
      ((List.range k).foldl (packCoilStep data) st).2.1 ≤ 7 ∧
      ∀ x ∈ ((List.range k).foldl (packCoilStep data) st).2.2, x < 256 := by
  induction k with
  | zero => intro st h1 h2 h3; exact ⟨h1, h2, h3⟩
  | succ n ih =>
    intro st h1 h2 h3
    rw [List.range_succ, List.foldl_append, List.foldl_cons, List.foldl_nil]
    have hinv := ih st h1 h2 h3
    exact packCoilStep_lt data _ n hinv.1 hinv.2.1 hinv.2.2

theorem packCoilData_lt (data : List Nat) (k : Nat) :
    ∀ x ∈ packCoilData data k, x < 256 := by
  unfold packCoilData
  exact (packCoil_foldl_lt data k (0, 0, []) (by simp) (by simp)
    (by intro x hx; simp at hx)).2.2

theorem GetCRC_some {p : List Nat} (h0 : p ≠ [])
    (hb : ∀ x ∈ p, x < 256) : GetCRC p = some (ModbusCrc p) := by
  unfold GetCRC
  rw [if_neg (by simp [h0]), if_pos (by simpa [List.all_eq_true] using hb)]

theorem GetCRC_none {p : List Nat} {x : Nat} (hx : x ∈ p) (h : 256 ≤ x) :
    GetCRC p = none := by
  unfold GetCRC
  split
  · rfl
  · split
    · next hall =>
      exfalso
      rw [List.all_eq_true] at hall
      have := hall x hx
      simp at this
      omega
    · rfl

theorem appendCRC_good {p : List Nat} (h0 : p ≠ []) (hb : ∀ x ∈ p, x < 256) :
    appendCRC p = p ++ [ModbusCrc p &&& 0xFF, ModbusCrc p >>> 8] := by
  unfold appendCRC
  rw [GetCRC_some h0 hb]

theorem appendCRC_bad {p : List Nat} {x : Nat} (hx : x ∈ p) (h : 256 ≤ x) :
    appendCRC p = p := by
  unfold appendCRC
  rw [GetCRC_none hx h]

theorem cmpFinish_big {s : MbState} {p : List Nat}
    (h : p.length > MAX_MODBUS_PACKET_SIZE) :
    cmpFinish s p = ({ s with comValidationError := s.comValidationError + 1 }, []) := by
  unfold cmpFinish
  rw [if_pos h]

theorem cmpFinish_keep {s : MbState} {p : List Nat} (hts : s.modbusTCP = false)
    (h : ¬ p.length > MAX_MODBUS_PACKET_SIZE) : cmpFinish s p = (s, p) := by
  unfold cmpFinish
  rw [if_neg h, if_neg (by simp [hts])]

theorem CMP_invalid {s : MbState} {register : Int} {length command : Nat}
    {data : List Nat} {file_num : Nat}
    (haddr : s.address < 256) (hlen : length ≤ 0xFFFF)
    (hdata : ∀ x ∈ data, x < 256)
    (h : requestInvalid register length command data.length file_num) :
    CreateMasterPacket s register length command data file_num =
      ({ s with comValidationError := s.comValidationError + 1 }, []) := by
  simp only [CreateMasterPacket]
  by_cases c1 : register < MIN_REGISTER ∨ register > MAX_REGISTER
  · rw [if_pos c1]
  rw [if_neg c1]
  by_cases c2 : file_num < MIN_FILE_NUMBER ∨ file_num > MAX_FILE_NUMBER
  · rw [if_pos c2]
  rw [if_neg c2]
  by_cases c3 : (command = MBUS_CMD_READ_FILE ∨ command = MBUS_CMD_WRITE_FILE) ∧
      (register < MIN_FILE_RECORD_NUM ∨ register > MAX_FILE_RECORD_NUM)
  · rw [if_pos c3]
  rw [if_neg c3]
  by_cases c4 : (command = MBUS_CMD_WRITE_REGS ∨ command = MBUS_CMD_WRITE_COILS ∨
      command = MBUS_CMD_WRITE_FILE) ∧ data.length = 0
  · rw [if_pos c4]
  rw [if_neg c4]
  by_cases c5 : (command = MBUS_CMD_WRITE_REGS ∨ command = MBUS_CMD_WRITE_COILS ∨
      command = MBUS_CMD_WRITE_FILE) ∧ data.length ≠ 2 * length
  · rw [if_pos c5]
  rw [if_neg c5]
  by_cases c6 : (command = MBUS_CMD_WRITE_COIL ∨ command = MBUS_CMD_WRITE_REG) ∧
      (length ≠ 1 ∨ data.length ≠ 2)
  · rw [if_pos c6]
  rw [if_neg c6]
  have hrest : ¬ supportedCommand command ∨
      builtSize command length data.length > MAX_MODBUS_PACKET_SIZE := by
    rcases h with h' | h' | h' | h' | h' | h' | h' | h'
    · exact absurd (Or.inl h') c1
    · exact absurd (Or.inr h') c1
    · exact absurd h' c2
    · exact absurd h' c3
    · rcases h'.2 with h0 | hne
      · exact absurd ⟨h'.1, h0⟩ c4
      · exact absurd ⟨h'.1, hne⟩ c5
    · exact absurd h' c6
    · exact Or.inl h'
    · exact Or.inr h'
  rcases hrest with hsup | hsize
  · have hn := hsup
    unfold supportedCommand at hn
    push_neg at hn
    obtain ⟨n3, n1, n4, n16, nF, n5, n6, n14, n15⟩ := hn
    rw [if_neg (by tauto), if_neg n16, if_neg nF, if_neg (by tauto),
      if_neg n14, if_neg n15]
  · have hM : MAX_MODBUS_PACKET_SIZE = 256 := rfl
    have hcmd : command = MBUS_CMD_WRITE_REGS ∨ command = MBUS_CMD_WRITE_COILS ∨
        command = MBUS_CMD_WRITE_FILE := by
      unfold builtSize at hsize
      rw [hM] at hsize
      split_ifs at hsize with b1 b2 b3 b4 b5 b6
      · omega
      · exact Or.inl b2
      · exact Or.inr (Or.inl b3)
      · omega
      · omega
      · exact Or.inr (Or.inr b6)
      · omega
    have hr : register.toNat ≤ 65535 := by
      have h1 : ¬ (register < 0 ∨ register > 65535) := by
        simpa [MIN_REGISTER, MAX_REGISTER] using c1
      omega
    rcases hcmd with hc | hc | hc <;> subst hc
    · -- WRITE_REGS, oversized
      simp only [builtSize, MBUS_CMD_READ_HOLDING_REGS, MBUS_CMD_READ_COILS,
        MBUS_CMD_READ_INPUT_REGS, MBUS_CMD_WRITE_REGS, MBUS_CMD_WRITE_COILS,
        MBUS_CMD_WRITE_COIL, MBUS_CMD_WRITE_REG, MBUS_CMD_READ_FILE,
        MBUS_CMD_WRITE_FILE, MAX_MODBUS_PACKET_SIZE] at hsize
      norm_num at hsize
      rw [if_neg (by decide), if_pos (by decide)]
      by_cases hd : data.length ≤ 255
      · have hbytes : ∀ x ∈ [s.address, MBUS_CMD_WRITE_REGS,
            register.toNat >>> 8, register.toNat &&& 0xFF, length >>> 8,
            length &&& 0xFF, data.length] ++ data, x < 256 := by
          intro x hx
          simp only [List.mem_append, List.mem_cons, List.not_mem_nil,
            or_false] at hx
          rcases hx with (rfl | rfl | rfl | rfl | rfl | rfl | rfl) | hx
          · exact haddr
          · decide
          · exact shr8_lt hr
          · exact and255_lt _
          · exact shr8_lt hlen
          · exact and255_lt _
          · omega
          · exact hdata x hx
        rw [appendCRC_good (by simp) hbytes]
        apply cmpFinish_big
        simp only [List.length_append, List.length_cons, List.length_nil]
        omega
      · rw [appendCRC_bad (x := data.length) (by simp) (by omega)]
        apply cmpFinish_big
        simp only [List.length_append, List.length_cons, List.length_nil]
        omega
    · -- WRITE_COILS, oversized
      simp only [builtSize, MBUS_CMD_READ_HOLDING_REGS, MBUS_CMD_READ_COILS,
        MBUS_CMD_READ_INPUT_REGS, MBUS_CMD_WRITE_REGS, MBUS_CMD_WRITE_COILS,
        MBUS_CMD_WRITE_COIL, MBUS_CMD_WRITE_REG, MBUS_CMD_READ_FILE,
        MBUS_CMD_WRITE_FILE, MAX_MODBUS_PACKET_SIZE] at hsize
      norm_num at hsize
      rw [if_neg (by decide), if_neg (by decide), if_pos (by decide)]
      by_cases hb : coilByteCount length ≤ 255
      · have hbytes : ∀ x ∈ [s.address, MBUS_CMD_WRITE_COILS,
            register.toNat >>> 8, register.toNat &&& 0xFF, length >>> 8,
            length &&& 0xFF, coilByteCount length] ++
              packCoilData data (coilByteCount length), x < 256 := by
          intro x hx
          simp only [List.mem_append, List.mem_cons, List.not_mem_nil,
            or_false] at hx
          rcases hx with (rfl | rfl | rfl | rfl | rfl | rfl | rfl) | hx
          · exact haddr
          · decide
          · exact shr8_lt hr
          · exact and255_lt _
          · exact shr8_lt hlen
          · exact and255_lt _
          · omega
          · exact packCoilData_lt data _ x hx
        rw [appendCRC_good (by simp) hbytes]
        apply cmpFinish_big
        simp only [List.length_append, List.length_cons, List.length_nil,
          packCoilData_length]
        omega
      · rw [appendCRC_bad (x := coilByteCount length) (by simp) (by omega)]
        apply cmpFinish_big
        simp only [List.length_append, List.length_cons, List.length_nil,
          packCoilData_length]
        omega
    · -- WRITE_FILE, oversized
      simp only [builtSize, MBUS_CMD_READ_HOLDING_REGS, MBUS_CMD_READ_COILS,
        MBUS_CMD_READ_INPUT_REGS, MBUS_CMD_WRITE_REGS, MBUS_CMD_WRITE_COILS,
        MBUS_CMD_WRITE_COIL, MBUS_CMD_WRITE_REG, MBUS_CMD_READ_FILE,
        MBUS_CMD_WRITE_FILE, MAX_MODBUS_PACKET_SIZE] at hsize
      norm_num at hsize
      have hdl : data.length = 2 * length := by
        by_contra hne
        exact c5 ⟨Or.inr (Or.inr rfl), hne⟩
      have hC : MBUS_FILE_WRITE_REQ_SIZE_MINUS_LENGTH = 7 := rfl
      rw [if_neg (by decide), if_neg (by decide), if_neg (by decide),
        if_neg (by decide), if_neg (by decide), if_pos (by decide)]
      have hfn : file_num ≤ 65535 := by
        have h1 : ¬ (file_num < 1 ∨ file_num > 65535) := by
          simpa [MIN_FILE_NUMBER, MAX_FILE_NUMBER] using c2
        omega
      by_cases hl2 : length * 2 + MBUS_FILE_WRITE_REQ_SIZE_MINUS_LENGTH ≤ 255
      · have hbytes : ∀ x ∈ [s.address, MBUS_CMD_WRITE_FILE,
            length * 2 + MBUS_FILE_WRITE_REQ_SIZE_MINUS_LENGTH,
            MBUS_FILE_TYPE_VALUE, file_num >>> 8, file_num &&& 0xFF,
            register.toNat >>> 8, register.toNat &&& 0xFF, length >>> 8,
            length &&& 0xFF] ++ data, x < 256 := by
          intro x hx
          simp only [List.mem_append, List.mem_cons, List.not_mem_nil,
            or_false] at hx
          rcases hx with (rfl | rfl | rfl | rfl | rfl | rfl | rfl | rfl | rfl | rfl) | hx
          · exact haddr
          · decide
          · omega
          · decide
          · exact shr8_lt hfn
          · exact and255_lt _
          · exact shr8_lt hr
          · exact and255_lt _
          · exact shr8_lt hlen
          · exact and255_lt _
          · exact hdata x hx
        rw [appendCRC_good (by simp) hbytes]
        apply cmpFinish_big
        simp only [List.length_append, List.length_cons, List.length_nil]
        omega
      · rw [appendCRC_bad
          (x := length * 2 + MBUS_FILE_WRITE_REQ_SIZE_MINUS_LENGTH)
          (by simp) (by omega)]
        apply cmpFinish_big
        simp only [List.length_append, List.length_cons, List.length_nil]
        omega

theorem CMP_valid {s : MbState} {register : Int} {length command : Nat}
    {data : List Nat} {file_num : Nat}
    (hts : s.modbusTCP = false) (haddr : s.address < 256)
    (hlen : length ≤ 0xFFFF) (hdata : ∀ x ∈ data, x < 256)
    (h : ¬ requestInvalid register length command data.length file_num) :
    ∃ body : List Nat, body ≠ [] ∧ (∀ x ∈ body, x < 256) ∧
      CreateMasterPacket s register length command data file_num =
        (s, body ++ [ModbusCrc body &&& 0xFF, ModbusCrc body >>> 8]) := by
  unfold requestInvalid at h
  push_neg at h
  obtain ⟨hminr, hmaxr, ⟨hfnmin, hfnmax⟩, hrec, hwm, hsingle, hsup, hsize⟩ := h
  have hr : register.toNat ≤ 65535 := by
    have h1 : register ≤ (65535 : Int) := by simpa [MAX_REGISTER] using hmaxr
    omega
  have hfn : file_num ≤ 65535 := by simpa [MAX_FILE_NUMBER] using hfnmax
  have nc1 : ¬ (register < MIN_REGISTER ∨ register > MAX_REGISTER) := by
    push_neg
    exact ⟨hminr, hmaxr⟩
  have nc2 : ¬ (file_num < MIN_FILE_NUMBER ∨ file_num > MAX_FILE_NUMBER) := by
    push_neg
    exact ⟨hfnmin, hfnmax⟩
  have nc3 : ¬ ((command = MBUS_CMD_READ_FILE ∨ command = MBUS_CMD_WRITE_FILE) ∧
      (register < MIN_FILE_RECORD_NUM ∨ register > MAX_FILE_RECORD_NUM)) := by
    rintro ⟨hfc, hout⟩
    have h2 := hrec hfc
    rcases hout with ho | ho
    · exact absurd ho (not_lt.mpr h2.1)
    · exact absurd ho (not_lt.mpr h2.2)
  have nc4 : ¬ ((command = MBUS_CMD_WRITE_REGS ∨ command = MBUS_CMD_WRITE_COILS ∨
      command = MBUS_CMD_WRITE_FILE) ∧ data.length = 0) := by
    rintro ⟨hw, h0⟩
    exact (hwm hw).1 h0
  have nc5 : ¬ ((command = MBUS_CMD_WRITE_REGS ∨ command = MBUS_CMD_WRITE_COILS ∨
      command = MBUS_CMD_WRITE_FILE) ∧ data.length ≠ 2 * length) := by
    rintro ⟨hw, hne⟩
    exact hne (hwm hw).2
  have nc6 : ¬ ((command = MBUS_CMD_WRITE_COIL ∨ command = MBUS_CMD_WRITE_REG) ∧
      (length ≠ 1 ∨ data.length ≠ 2)) := by
    rintro ⟨hc', ho⟩
    rcases ho with h' | h'
    · exact h' (hsingle hc').1
    · exact h' (hsingle hc').2
  unfold supportedCommand at hsup
  rcases hsup with hc | hc | hc | hc | hc | hc | hc | hc | hc
  · -- READ_HOLDING_REGS
    have hcv : command < 256 := by rw [hc]; decide
    have hbytes : ∀ x ∈ [s.address, command,
        register.toNat >>> 8, register.toNat &&& 0xFF, length >>> 8,
        length &&& 0xFF], x < 256 := by
      intro x hx
      simp only [List.mem_cons, List.not_mem_nil, or_false] at hx
      rcases hx with rfl | rfl | rfl | rfl | rfl | rfl
      · exact haddr
      · exact hcv
      · exact shr8_lt hr
      · exact and255_lt _
      · exact shr8_lt hlen
      · exact and255_lt _
    refine ⟨_, by simp, hbytes, ?_⟩
    simp only [CreateMasterPacket]
    rw [if_neg nc1, if_neg nc2, if_neg nc3, if_neg nc4, if_neg nc5, if_neg nc6,
      if_pos (Or.inl hc)]
    rw [appendCRC_good (by simp) hbytes]
    refine cmpFinish_keep hts ?_
    simp only [List.length_append, List.length_cons, List.length_nil]
    have hM : MAX_MODBUS_PACKET_SIZE = 256 := rfl
    omega
  · -- READ_COILS
    have hcv : command < 256 := by rw [hc]; decide
    have hbytes : ∀ x ∈ [s.address, command,
        register.toNat >>> 8, register.toNat &&& 0xFF, length >>> 8,
        length &&& 0xFF], x < 256 := by
      intro x hx
      simp only [List.mem_cons, List.not_mem_nil, or_false] at hx
      rcases hx with rfl | rfl | rfl | rfl | rfl | rfl
      · exact haddr
      · exact hcv
      · exact shr8_lt hr
      · exact and255_lt _
      · exact shr8_lt hlen
      · exact and255_lt _
    refine ⟨_, by simp, hbytes, ?_⟩
    simp only [CreateMasterPacket]
    rw [if_neg nc1, if_neg nc2, if_neg nc3, if_neg nc4, if_neg nc5, if_neg nc6,
      if_pos (Or.inr (Or.inl hc))]
    rw [appendCRC_good (by simp) hbytes]
    refine cmpFinish_keep hts ?_
    simp only [List.length_append, List.length_cons, List.length_nil]
    have hM : MAX_MODBUS_PACKET_SIZE = 256 := rfl
    omega
  · -- READ_INPUT_REGS
    have hcv : command < 256 := by rw [hc]; decide
    have hbytes : ∀ x ∈ [s.address, command,
        register.toNat >>> 8, register.toNat &&& 0xFF, length >>> 8,
        length &&& 0xFF], x < 256 := by
      intro x hx
      simp only [List.mem_cons, List.not_mem_nil, or_false] at hx
      rcases hx with rfl | rfl | rfl | rfl | rfl | rfl
      · exact haddr
      · exact hcv
      · exact shr8_lt hr
      · exact and255_lt _
      · exact shr8_lt hlen
      · exact and255_lt _
    refine ⟨_, by simp, hbytes, ?_⟩
    simp only [CreateMasterPacket]
    rw [if_neg nc1, if_neg nc2, if_neg nc3, if_neg nc4, if_neg nc5, if_neg nc6,
      if_pos (Or.inr (Or.inr hc))]
    rw [appendCRC_good (by simp) hbytes]
    refine cmpFinish_keep hts ?_
    simp only [List.length_append, List.length_cons, List.length_nil]
    have hM : MAX_MODBUS_PACKET_SIZE = 256 := rfl
    omega
  · -- WRITE_REGS
    have hcv : command < 256 := by rw [hc]; decide
    have hsz : 9 + data.length ≤ 256 := by
      rw [hc] at hsize
      simpa [builtSize, MBUS_CMD_READ_HOLDING_REGS, MBUS_CMD_READ_COILS,
        MBUS_CMD_READ_INPUT_REGS, MBUS_CMD_WRITE_REGS,
        MAX_MODBUS_PACKET_SIZE] using hsize
    have hbytes : ∀ x ∈ [s.address, command,
        register.toNat >>> 8, register.toNat &&& 0xFF, length >>> 8,
        length &&& 0xFF, data.length] ++ data, x < 256 := by
      intro x hx
      simp only [List.mem_append, List.mem_cons, List.not_mem_nil,
        or_false] at hx
      rcases hx with (rfl | rfl | rfl | rfl | rfl | rfl | rfl) | hx
      · exact haddr
      · exact hcv
      · exact shr8_lt hr
      · exact and255_lt _
      · exact shr8_lt hlen
      · exact and255_lt _
      · omega
      · exact hdata x hx
    refine ⟨_, by simp, hbytes, ?_⟩
    simp only [CreateMasterPacket]
    rw [if_neg nc1, if_neg nc2, if_neg nc3, if_neg nc4, if_neg nc5, if_neg nc6,
      if_neg (by rw [hc]; decide), if_pos hc]
    rw [appendCRC_good (by simp) hbytes]
    refine cmpFinish_keep hts ?_
    simp only [List.length_append, List.length_cons, List.length_nil]
    have hM : MAX_MODBUS_PACKET_SIZE = 256 := rfl
    omega
  · -- WRITE_COILS
    have hcv : command < 256 := by rw [hc]; decide
    have hsz : 9 + coilByteCount length ≤ 256 := by
      rw [hc] at hsize
      simpa [builtSize, MBUS_CMD_READ_HOLDING_REGS, MBUS_CMD_READ_COILS,
        MBUS_CMD_READ_INPUT_REGS, MBUS_CMD_WRITE_REGS, MBUS_CMD_WRITE_COILS,
        MAX_MODBUS_PACKET_SIZE] using hsize
    have hbytes : ∀ x ∈ [s.address, command,
        register.toNat >>> 8, register.toNat &&& 0xFF, length >>> 8,
        length &&& 0xFF, coilByteCount length] ++
          packCoilData data (coilByteCount length), x < 256 := by
      intro x hx
      simp only [List.mem_append, List.mem_cons, List.not_mem_nil,
        or_false] at hx
      rcases hx with (rfl | rfl | rfl | rfl | rfl | rfl | rfl) | hx
      · exact haddr
      · exact hcv
      · exact shr8_lt hr
      · exact and255_lt _
      · exact shr8_lt hlen
      · exact and255_lt _
      · omega
      · exact packCoilData_lt data _ x hx
    refine ⟨_, by simp, hbytes, ?_⟩
    simp only [CreateMasterPacket]
    rw [if_neg nc1, if_neg nc2, if_neg nc3, if_neg nc4, if_neg nc5, if_neg nc6,
      if_neg (by rw [hc]; decide), if_neg (by rw [hc]; decide), if_pos hc]
    rw [appendCRC_good (by simp) hbytes]
    refine cmpFinish_keep hts ?_
    simp only [List.length_append, List.length_cons, List.length_nil,
      packCoilData_length]
    have hM : MAX_MODBUS_PACKET_SIZE = 256 := rfl
    omega
  · -- WRITE_COIL
    have hcv : command < 256 := by rw [hc]; decide
    by_cases hcoil : data.getD 0 0 ≠ 0 ∨ data.getD 1 0 ≠ 0
    · have hbytes : ∀ x ∈ [s.address, command,
          register.toNat >>> 8, register.toNat &&& 0xFF] ++
            [0xFF, 0x00], x < 256 := by
        intro x hx
        simp only [List.mem_append, List.mem_cons, List.not_mem_nil,
          or_false] at hx
        rcases hx with (rfl | rfl | rfl | rfl) | (rfl | rfl)
        · exact haddr
        · exact hcv
        · exact shr8_lt hr
        · exact and255_lt _
        · decide
        · decide
      refine ⟨_, by simp, hbytes, ?_⟩
      simp only [CreateMasterPacket]
      rw [if_neg nc1, if_neg nc2, if_neg nc3, if_neg nc4, if_neg nc5, if_neg nc6,
        if_neg (by rw [hc]; decide), if_neg (by rw [hc]; decide),
        if_neg (by rw [hc]; decide), if_pos (Or.inl hc), if_pos hc,
        if_pos hcoil]
      rw [appendCRC_good (by simp) hbytes]
      refine cmpFinish_keep hts ?_
      simp only [List.length_append, List.length_cons, List.length_nil]
      have hM : MAX_MODBUS_PACKET_SIZE = 256 := rfl
      omega
    · have hbytes : ∀ x ∈ [s.address, command,
          register.toNat >>> 8, register.toNat &&& 0xFF] ++
            [0x00, 0x00], x < 256 := by
        intro x hx
        simp only [List.mem_append, List.mem_cons, List.not_mem_nil,
          or_false] at hx
        rcases hx with (rfl | rfl | rfl | rfl) | (rfl | rfl)
        · exact haddr
        · exact hcv
        · exact shr8_lt hr
        · exact and255_lt _
        · decide
        · decide
      refine ⟨_, by simp, hbytes, ?_⟩
      simp only [CreateMasterPacket]
      rw [if_neg nc1, if_neg nc2, if_neg nc3, if_neg nc4, if_neg nc5, if_neg nc6,
        if_neg (by rw [hc]; decide), if_neg (by rw [hc]; decide),
        if_neg (by rw [hc]; decide), if_pos (Or.inl hc), if_pos hc,
        if_neg hcoil]
      rw [appendCRC_good (by simp) hbytes]
      refine cmpFinish_keep hts ?_
      simp only [List.length_append, List.length_cons, List.length_nil]
      have hM : MAX_MODBUS_PACKET_SIZE = 256 := rfl
      omega
  · -- WRITE_REG
    have hcv : command < 256 := by rw [hc]; decide
    have hs2 := hsingle (Or.inr hc)
    have hbytes : ∀ x ∈ [s.address, command,
        register.toNat >>> 8, register.toNat &&& 0xFF] ++
          [data.getD 0 0, data.getD 1 0], x < 256 := by
      intro x hx
      simp only [List.mem_append, List.mem_cons, List.not_mem_nil,
        or_false] at hx
      rcases hx with (rfl | rfl | rfl | rfl) | (rfl | rfl)
      · exact haddr
      · exact hcv
      · exact shr8_lt hr
      · exact and255_lt _
      · exact hdata _ (getD_mem (by omega))
      · exact hdata _ (getD_mem (by omega))
    refine ⟨_, by simp, hbytes, ?_⟩
    simp only [CreateMasterPacket]
    rw [if_neg nc1, if_neg nc2, if_neg nc3, if_neg nc4, if_neg nc5, if_neg nc6,
      if_neg (by rw [hc]; decide), if_neg (by rw [hc]; decide),
      if_neg (by rw [hc]; decide), if_pos (Or.inr hc),
      if_neg (by rw [hc]; decide)]
    rw [appendCRC_good (by simp) hbytes]
    refine cmpFinish_keep hts ?_
    simp only [List.length_append, List.length_cons, List.length_nil]
    have hM : MAX_MODBUS_PACKET_SIZE = 256 := rfl
    omega
  · -- READ_FILE
    have hcv : command < 256 := by rw [hc]; decide
    have hbytes : ∀ x ∈ [s.address, command,
        MBUS_READ_FILE_REQUEST_PAYLOAD_LENGTH, MBUS_FILE_TYPE_VALUE,
        file_num >>> 8, file_num &&& 0xFF, register.toNat >>> 8,
        register.toNat &&& 0xFF, length >>> 8, length &&& 0xFF], x < 256 := by
      intro x hx
      simp only [List.mem_cons, List.not_mem_nil, or_false] at hx
      rcases hx with rfl | rfl | rfl | rfl | rfl | rfl | rfl | rfl | rfl | rfl
      · exact haddr
      · exact hcv
      · decide
      · decide
      · exact shr8_lt hfn
      · exact and255_lt _
      · exact shr8_lt hr
      · exact and255_lt _
      · exact shr8_lt hlen
      · exact and255_lt _
    refine ⟨_, by simp, hbytes, ?_⟩
    simp only [CreateMasterPacket]
    rw [if_neg nc1, if_neg nc2, if_neg nc3, if_neg nc4, if_neg nc5, if_neg nc6,
      if_neg (by rw [hc]; decide), if_neg (by rw [hc]; decide),
      if_neg (by rw [hc]; decide), if_neg (by rw [hc]; decide), if_pos hc]
    rw [appendCRC_good (by simp) hbytes]
    refine cmpFinish_keep hts ?_
    simp only [List.length_append, List.length_cons, List.length_nil]
    have hM : MAX_MODBUS_PACKET_SIZE = 256 := rfl
    omega
  · -- WRITE_FILE
    have hcv : command < 256 := by rw [hc]; decide
    have hsz : 12 + data.length ≤ 256 := by
      rw [hc] at hsize
      simpa [builtSize, MBUS_CMD_READ_HOLDING_REGS, MBUS_CMD_READ_COILS,
        MBUS_CMD_READ_INPUT_REGS, MBUS_CMD_WRITE_REGS, MBUS_CMD_WRITE_COILS,
        MBUS_CMD_WRITE_COIL, MBUS_CMD_WRITE_REG, MBUS_CMD_READ_FILE,
        MBUS_CMD_WRITE_FILE, MAX_MODBUS_PACKET_SIZE] using hsize
    have hdl : data.length = 2 * length := (hwm (Or.inr (Or.inr hc))).2
    have hC : MBUS_FILE_WRITE_REQ_SIZE_MINUS_LENGTH = 7 := rfl
    have hbytes : ∀ x ∈ [s.address, command,
        length * 2 + MBUS_FILE_WRITE_REQ_SIZE_MINUS_LENGTH,
        MBUS_FILE_TYPE_VALUE, file_num >>> 8, file_num &&& 0xFF,
        register.toNat >>> 8, register.toNat &&& 0xFF, length >>> 8,
        length &&& 0xFF] ++ data, x < 256 := by
      intro x hx
      simp only [List.mem_append, List.mem_cons, List.not_mem_nil,
        or_false] at hx
      rcases hx with (rfl | rfl | rfl | rfl | rfl | rfl | rfl | rfl | rfl | rfl) | hx
      · exact haddr
      · exact hcv
      · omega
      · decide
      · exact shr8_lt hfn
      · exact and255_lt _
      · exact shr8_lt hr
      · exact and255_lt _
      · exact shr8_lt hlen
      · exact and255_lt _
      · exact hdata x hx
    refine ⟨_, by simp, hbytes, ?_⟩
    simp only [CreateMasterPacket]
    rw [if_neg nc1, if_neg nc2, if_neg nc3, if_neg nc4, if_neg nc5, if_neg nc6,
      if_neg (by rw [hc]; decide), if_neg (by rw [hc]; decide),
      if_neg (by rw [hc]; decide), if_neg (by rw [hc]; decide),
      if_neg (by rw [hc]; decide), if_pos hc]
    rw [appendCRC_good (by simp) hbytes]
    refine cmpFinish_keep hts ?_
    simp only [List.length_append, List.length_cons, List.length_nil]
    have hM : MAX_MODBUS_PACKET_SIZE = 256 := rfl
    omega


/-- C4 (amended): with Modbus TCP disabled, a byte-sized device address, a
declared length of at most 0xFFFF, and byte-sized payload data,
`CreateMasterPacket` returns the empty packet after incrementing the
validation-error counter exactly when the request is invalid — where invalid
covers the parameter checks (register range, file number range, file record
range, multi-write payload emptiness and 2-bytes-per-register, single-write
length and payload), an unsupported function code, and a built packet
exceeding the 256-byte maximum; on a valid request the state is untouched and
the packet non-empty.  `_PWT` bails out before sending anything when its
built write packet is empty. -/
theorem claim_C4 {s : MbState} {register : Int} {length command : Nat}
    {data : List Nat} {file_num : Nat}
    (hts : s.modbusTCP = false) (haddr : s.address < 256)
    (hlen : length ≤ 0xFFFF) (hdata : ∀ x ∈ data, x < 256) :
    (requestInvalid register length command data.length file_num →
      CreateMasterPacket s register length command data file_num =
        ({ s with comValidationError := s.comValidationError + 1 }, [])) ∧
    (¬ requestInvalid register length command data.length file_num →
      (CreateMasterPacket s register length command data file_num).1 = s ∧
      (CreateMasterPacket s register length command data file_num).2 ≠ []) ∧
    (∀ (upd : Option UpdateFn) (timeoutMS : Nat) (ovr : Option Nat)
        (isCoil isSingle : Bool) (events : List PollEvent),
      requestInvalid register length (pwtCmd isCoil isSingle) data.length 1 →
      PWT upd timeoutMS s register length data ovr isCoil isSingle events =
        ({ s with comValidationError := s.comValidationError + 1 },
          .failed, none)) := by
  refine ⟨CMP_invalid haddr hlen hdata, ?_, ?_⟩
  · intro h
    obtain ⟨body, hne, hb, heq⟩ := CMP_valid hts haddr hlen hdata h
    rw [heq]
    exact ⟨rfl, by simp⟩
  · intro upd timeoutMS ovr isCoil isSingle events h
    have hc := CMP_invalid (s := s) haddr hlen hdata h
    simp only [PWT]
    rw [hc]
    rfl

/-- C4 counterexample: a read-discrete-inputs request (function code 0x02,
which the engine does not support) with every parameter condition of the
claim satisfied — register 0 in range, file number 1 in range, and a function
code to which none of the payload conditions apply — still yields an empty
packet and a validation-error count: the claim's "exactly when a request
parameter is invalid" misses the unsupported-function-code rejection. -/
theorem claim_C4_counterexample :
    (CreateMasterPacket (initState false 1 []) 0 1 2 [] 1).2 = [] ∧
    (CreateMasterPacket (initState false 1 []) 0 1 2 [] 1).1.comValidationError
      = 1 ∧
    MIN_REGISTER ≤ 0 ∧ (0 : Int) ≤ MAX_REGISTER ∧
    MIN_FILE_NUMBER ≤ 1 ∧ (1 : Nat) ≤ MAX_FILE_NUMBER ∧
    (2 : Nat) ≠ MBUS_CMD_READ_FILE ∧ (2 : Nat) ≠ MBUS_CMD_WRITE_FILE ∧
    (2 : Nat) ≠ MBUS_CMD_WRITE_REGS ∧ (2 : Nat) ≠ MBUS_CMD_WRITE_COILS ∧
    (2 : Nat) ≠ MBUS_CMD_WRITE_COIL ∧ (2 : Nat) ≠ MBUS_CMD_WRITE_REG := by
  decide

/-- C4 witness: `claim_C4` on concrete requests — an out-of-range register is
rejected with one counted validation error, an in-range register read builds a
non-empty packet without touching the state, and a multi-register write with
an empty payload makes `_PWT` fail without handing bytes to the transport. -/
theorem claim_C4_witness :
    CreateMasterPacket (initState false 1 []) 0x10000 1 3 [] 1 =
      ({ initState false 1 [] with comValidationError := 1 }, []) ∧
    ((CreateMasterPacket (initState false 1 []) 0 1 3 [] 1).1 =
        initState false 1 [] ∧
      (CreateMasterPacket (initState false 1 []) 0 1 3 [] 1).2 ≠ []) ∧
    PWT none 0 (initState false 1 []) 0 1 [] none false false [] =
      ({ initState false 1 [] with comValidationError := 1 },
        .failed, none) := by
  refine ⟨?_, ?_, ?_⟩
  · exact (@claim_C4 (initState false 1 []) 0x10000 1 3 [] 1 rfl (by decide)
      (by decide) (by decide)).1 (by decide)
  · exact (@claim_C4 (initState false 1 []) 0 1 3 [] 1 rfl (by decide)
      (by decide) (by decide)).2.1 (by decide)
  · exact (@claim_C4 (initState false 1 []) 0 1 3 [] 1 rfl (by decide)
      (by decide) (by decide)).2.2 none 0 none false false [] (by decide)


set_option maxRecDepth 10000 in
/-- C1: for every non-empty request packet built by `CreateMasterPacket` in
RTU mode (byte-sized address, length at most 0xFFFF, byte-sized data), the
last two bytes are the CRC-16/MODBUS of all preceding bytes, low byte first;
in particular the read of register 0x0000 with length 1, address 0x01 and
function 0x03 is exactly [0x01,0x03,0x00,0x00,0x00,0x01,0x84,0x0A], whose
trailer encodes the CRC value 0x0A84 low byte first. -/
theorem claim_C1 :
    (∀ (s : MbState) (register : Int) (length command : Nat) (data : List Nat)
        (file_num : Nat), s.modbusTCP = false → s.address < 256 →
      length ≤ 0xFFFF → (∀ x ∈ data, x < 256) →
      (CreateMasterPacket s register length command data file_num).2 ≠ [] →
      ∃ body : List Nat,
        (CreateMasterPacket s register length command data file_num).2 =
          body ++ [ModbusCrc body &&& 0xFF, ModbusCrc body >>> 8]) ∧
    CreateMasterPacket (initState false 1 []) 0 1 MBUS_CMD_READ_HOLDING_REGS
        [] 1 =
      (initState false 1 [], [0x01, 0x03, 0x00, 0x00, 0x00, 0x01, 0x84, 0x0A]) ∧
    ModbusCrc [0x01, 0x03, 0x00, 0x00, 0x00, 0x01] = 0x0A84 := by
  refine ⟨?_, by decide, by decide⟩
  intro s register length command data file_num hts haddr hlen hdata hne
  by_cases h : requestInvalid register length command data.length file_num
  · exact absurd (congrArg Prod.snd (CMP_invalid haddr hlen hdata h)) hne
  · obtain ⟨body, hbne, hb, heq⟩ := CMP_valid hts haddr hlen hdata h
    exact ⟨body, by rw [heq]⟩

/-- C1 witness: the universal trailer property of `claim_C1` applied to the
concrete single-register read request, whose built packet is non-empty. -/
theorem claim_C1_witness :
    ∃ body : List Nat,
      (CreateMasterPacket (initState false 1 []) 0 1
          MBUS_CMD_READ_HOLDING_REGS [] 1).2 =
        body ++ [ModbusCrc body &&& 0xFF, ModbusCrc body >>> 8] :=
  claim_C1.1 (initState false 1 []) 0 1 MBUS_CMD_READ_HOLDING_REGS [] 1 rfl
    (by decide) (by decide) (by decide) (by decide)


theorem DiscardByte_cte (s : MbState) :
    (DiscardByte s).comTimoutError = s.comTimoutError := by
  unfold DiscardByte
  split <;> rfl

theorem GetExceptionString_cte (s : MbState) (code : Nat) :
    (GetExceptionString s code).1.comTimoutError = s.comTimoutError := by
  unfold GetExceptionString
  dsimp only
  simp only [apply_ite MbState.comTimoutError, ite_self]

theorem gpsHeader_cte (s : MbState) :
    (∀ r, gpsHeader s = .inl r → r.1.comTimoutError = s.comTimoutError) ∧
    (∀ s1, gpsHeader s = .inr s1 → s1.comTimoutError = s.comTimoutError) := by
  simp only [gpsHeader]
  by_cases ht : s.modbusTCP = true
  case neg =>
    rw [if_neg ht]
    refine ⟨fun r hr => ?_, fun s1 hs => ?_⟩
    · cases hr
    · cases hs
      rfl
  rw [if_pos ht]
  by_cases c1 : s.buffer.length < MIN_PACKET_ERR_LENGTH true + MODBUS_TCP_HEADER_SIZE
  · rw [if_pos c1]
    refine ⟨fun r hr => ?_, fun s1 hs => ?_⟩
    · cases hr
      rfl
    · cases hs
  rw [if_neg c1]
  by_cases c2 : s.currentTransactionID ≠
      (s.buffer.getD 0 0 <<< 8 ||| (s.buffer.getD 1 0 &&& 0xFF))
  · rw [if_pos c2]
    refine ⟨fun r hr => ?_, fun s1 hs => ?_⟩
    · cases hr
      exact DiscardByte_cte s
    · cases hs
  rw [if_neg c2]
  by_cases c3 : s.buffer.getD 2 0 ≠ 0 ∨ s.buffer.getD 3 0 ≠ 0
  · rw [if_pos c3]
    refine ⟨fun r hr => ?_, fun s1 hs => ?_⟩
    · cases hr
      exact DiscardByte_cte s
    · cases hs
  rw [if_neg c3]
  by_cases c4 : (s.buffer.drop 6).length ≠
      (s.buffer.getD 4 0 <<< 8 ||| (s.buffer.getD 5 0 &&& 0xFF))
  · rw [if_pos c4]
    refine ⟨fun r hr => ?_, fun s1 hs => ?_⟩
    · cases hr
      rfl
    · cases hs
  · rw [if_neg c4]
    refine ⟨fun r hr => ?_, fun s1 hs => ?_⟩
    · cases hr
    · cases hs
      rfl

theorem gpsBody_cte (s1 : MbState) (ovr : Option Nat) :
    (gpsBody s1 ovr).1.comTimoutError = s1.comTimoutError := by
  simp only [gpsBody]
  by_cases c1 : CheckResponseAddress s1 (s1.buffer.getD MBUS_OFF_ADDRESS 0) = true
  case neg =>
    rw [if_pos (by simpa using c1)]
    exact DiscardByte_cte s1
  rw [if_neg (by simpa using c1)]
  by_cases c2 : s1.buffer.length < MIN_PACKET_ERR_LENGTH s1.modbusTCP
  · rw [if_pos c2]
  rw [if_neg c2]
  by_cases c3 : s1.buffer.getD MBUS_OFF_COMMAND 0 &&& MBUS_ERROR_BIT ≠ 0
  · rw [if_pos c3]
    by_cases c4 : CheckCRC
        { s1 with buffer := s1.buffer.drop (MIN_PACKET_ERR_LENGTH s1.modbusTCP) }
        (s1.buffer.take (MIN_PACKET_ERR_LENGTH s1.modbusTCP)) = true
    · rw [if_pos c4]
      exact GetExceptionString_cte _ _
    · rw [if_neg c4]
  rw [if_neg c3]
  by_cases c5 : s1.buffer.length <
      (match ovr with
        | some m => m
        | none => MIN_PACKET_RESPONSE_LENGTH s1.modbusTCP)
  · rw [if_pos c5]
  rw [if_neg c5]
  by_cases c6 : s1.buffer.getD MBUS_OFF_COMMAND 0 = MBUS_CMD_READ_HOLDING_REGS ∨
      s1.buffer.getD MBUS_OFF_COMMAND 0 = MBUS_CMD_READ_INPUT_REGS ∨
      s1.buffer.getD MBUS_OFF_COMMAND 0 = MBUS_CMD_READ_COILS
  · rw [if_pos c6]
    by_cases c7 : s1.buffer.getD MBUS_OFF_RESPONSE_LEN 0 +
        MBUS_RES_PAYLOAD_SIZE_MINUS_LENGTH s1.modbusTCP > s1.buffer.length
    · rw [if_pos c7]
    rw [if_neg c7]
    by_cases c8 : CheckCRC
        { s1 with buffer := s1.buffer.drop (s1.buffer.getD MBUS_OFF_RESPONSE_LEN 0 +
            MBUS_RES_PAYLOAD_SIZE_MINUS_LENGTH s1.modbusTCP) }
        (s1.buffer.take (s1.buffer.getD MBUS_OFF_RESPONSE_LEN 0 +
            MBUS_RES_PAYLOAD_SIZE_MINUS_LENGTH s1.modbusTCP)) = true
    · rw [if_pos c8]
    · rw [if_neg c8]
  rw [if_neg c6]
  by_cases c9 : s1.buffer.getD MBUS_OFF_COMMAND 0 = MBUS_CMD_WRITE_REGS ∨
      s1.buffer.getD MBUS_OFF_COMMAND 0 = MBUS_CMD_WRITE_COILS
  · rw [if_pos c9]
    by_cases c10 : s1.buffer.length < MIN_PACKET_MIN_WRITE_RESPONSE_LENGTH
    · rw [if_pos c10]
    rw [if_neg c10]
    by_cases c11 : CheckCRC
        { s1 with buffer := s1.buffer.drop MIN_PACKET_MIN_WRITE_RESPONSE_LENGTH }
        (s1.buffer.take MIN_PACKET_MIN_WRITE_RESPONSE_LENGTH) = true
    · rw [if_pos c11]
    · rw [if_neg c11]
  rw [if_neg c9]
  by_cases c12 : s1.buffer.getD MBUS_OFF_COMMAND 0 = MBUS_CMD_WRITE_COIL ∨
      s1.buffer.getD MBUS_OFF_COMMAND 0 = MBUS_CMD_WRITE_REG
  · rw [if_pos c12]
    by_cases c13 : s1.buffer.length < MBUS_SINGLE_WRITE_RES_LENGTH
    · rw [if_pos c13]
    rw [if_neg c13]
    by_cases c14 : CheckCRC
        { s1 with buffer := s1.buffer.drop MIN_PACKET_MIN_WRITE_RESPONSE_LENGTH }
        (s1.buffer.take MIN_PACKET_MIN_WRITE_RESPONSE_LENGTH) = true
    · rw [if_pos c14]
    · rw [if_neg c14]
  rw [if_neg c12]
  by_cases c15 : s1.buffer.getD MBUS_OFF_COMMAND 0 = MBUS_CMD_READ_FILE
  · rw [if_pos c15]
    rcases hft : s1.buffer[MBUS_OFF_FILE_TYPE]? with - | ft
    · simp [hft]
    simp only [hft]
    by_cases c16 : ft ≠ MBUS_FILE_TYPE_VALUE
    · rw [if_pos c16]
    rw [if_neg c16]
    by_cases c17 : s1.buffer.getD MBUS_OFF_RESPONSE_LEN 0 +
        MBUS_FILE_READ_PAYLOAD_SIZE_MINUS_LENGTH s1.modbusTCP > s1.buffer.length
    · rw [if_pos c17]
    rw [if_neg c17]
    by_cases c18 : CheckCRC { s1 with buffer := ([] : List Nat) } s1.buffer = true
    · rw [if_pos c18]
    · rw [if_neg c18]
  rw [if_neg c15]
  by_cases c19 : s1.buffer.getD MBUS_OFF_COMMAND 0 = MBUS_CMD_WRITE_FILE
  · rw [if_pos c19]
    rcases hft : s1.buffer[MBUS_OFF_WRITE_FILE_TYPE]? with - | ft
    · simp [hft]
    simp only [hft]
    by_cases c20 : ft ≠ MBUS_FILE_TYPE_VALUE
    · rw [if_pos c20]
    rw [if_neg c20]
    by_cases c21 : s1.buffer.getD MBUS_OFF_RESPONSE_LEN 0 +
        MBUS_FILE_READ_PAYLOAD_SIZE_MINUS_LENGTH s1.modbusTCP > s1.buffer.length
    · rw [if_pos c21]
    rw [if_neg c21]
    by_cases c22 : CheckCRC { s1 with buffer := ([] : List Nat) } s1.buffer = true
    · rw [if_pos c22]
    · rw [if_neg c22]
  rw [if_neg c19]
  exact DiscardByte_cte s1

theorem GPS_cte (s : MbState) (ovr : Option Nat) :
    (GetPacketFromSlave s ovr).1.comTimoutError = s.comTimoutError := by
  unfold GetPacketFromSlave
  split
  · rfl
  · rcases hh : gpsHeader s with r | s1 <;> simp only [hh]
    · exact (gpsHeader_cte s).1 r hh
    · exact (gpsBody_cte s1 ovr).trans ((gpsHeader_cte s).2 s1 hh)

theorem potLoop_fail (upd : Option UpdateFn) (timeoutMS : Nat)
    (master : List Nat) (skipUpdate returnString : Bool) (ovr : Option Nat) :
    ∀ (events : List PollEvent) (s : MbState),
      (((potLoop upd timeoutMS master skipUpdate returnString ovr s
            events).2.2 = .rejected ∨
        (potLoop upd timeoutMS master skipUpdate returnString ovr s
            events).2.2 = .extractErr) →
        (potLoop upd timeoutMS master skipUpdate returnString ovr s
            events).1.buffer = [] ∧
        (potLoop upd timeoutMS master skipUpdate returnString ovr s
            events).2.1 = "") ∧
      ((potLoop upd timeoutMS master skipUpdate returnString ovr s
          events).2.2 = .timeout →
        (potLoop upd timeoutMS master skipUpdate returnString ovr s
            events).1.buffer = [] ∧
        (potLoop upd timeoutMS master skipUpdate returnString ovr s
            events).2.1 = "" ∧
        (potLoop upd timeoutMS master skipUpdate returnString ovr s
            events).1.comTimoutError = s.comTimoutError + 1) := by
  intro events
  induction events with
  | nil =>
    intro s
    constructor
    · intro h
      rcases h with h | h <;> exact absurd h (by simp [potLoop])
    · intro h
      exact absurd h (by simp [potLoop])
  | cons e rest ih =>
    intro s
    simp only [potLoop]
    by_cases h1 : (GetPacketFromSlave { s with buffer := s.buffer ++ e.arrived }
        ovr).2.1 = true ∧
        (GetPacketFromSlave { s with buffer := s.buffer ++ e.arrived }
          ovr).2.2.length ≠ 0
    · rw [if_pos h1]
      by_cases h2 : (URFP upd
          (GetPacketFromSlave { s with buffer := s.buffer ++ e.arrived } ovr).1
          master
          (GetPacketFromSlave { s with buffer := s.buffer ++ e.arrived } ovr).2.2
          skipUpdate returnString).2 = "Error"
      · rw [if_pos h2]
        constructor
        · intro _
          exact ⟨rfl, rfl⟩
        · intro h
          exact nomatch h
      · rw [if_neg h2]
        constructor
        · intro h
          rcases h with h | h <;> exact nomatch h
        · intro h
          exact nomatch h
    · rw [if_neg h1]
      by_cases h3 : (GetPacketFromSlave { s with buffer := s.buffer ++ e.arrived }
          ovr).2.1 = false
      · rw [if_pos h3]
        constructor
        · intro _
          exact ⟨rfl, rfl⟩
        · intro h
          exact nomatch h
      · rw [if_neg h3]
        by_cases h4 : e.msElapsed > timeoutMS
        · rw [if_pos h4]
          constructor
          · intro h
            rcases h with h | h <;> exact nomatch h
          · intro _
            refine ⟨rfl, rfl, ?_⟩
            show (GetPacketFromSlave { s with buffer := s.buffer ++ e.arrived }
              ovr).1.comTimoutError + 1 = s.comTimoutError + 1
            rw [GPS_cte]
        · rw [if_neg h4]
          constructor
          · exact (ih _).1
          · intro h
            obtain ⟨hb, hv, hc⟩ := (ih _).2 h
            refine ⟨hb, hv, ?_⟩
            rw [hc, GPS_cte]

/-- C9: every terminal failure of `ProcessOneTransaction` leaves the inbound
buffer flushed and returns the empty string: a parser rejection flushes the
buffer, an extraction returning the sentinel flushes it, and a timeout
additionally increments the timeout counter by exactly 1 over its value at
the start of the transaction. -/
theorem claim_C9 (upd : Option UpdateFn) (timeoutMS : Nat) (s : MbState)
    (master : List Nat) (skipUpdate returnString : Bool) (ovr : Option Nat)
    (events : List PollEvent) :
    (((ProcessOneTransaction upd timeoutMS s master skipUpdate returnString ovr
          events).2.2 = .rejected ∨
      (ProcessOneTransaction upd timeoutMS s master skipUpdate returnString ovr
          events).2.2 = .extractErr) →
      (ProcessOneTransaction upd timeoutMS s master skipUpdate returnString ovr
          events).1.buffer = [] ∧
      (ProcessOneTransaction upd timeoutMS s master skipUpdate returnString ovr
          events).2.1 = "") ∧
    ((ProcessOneTransaction upd timeoutMS s master skipUpdate returnString ovr
        events).2.2 = .timeout →
      (ProcessOneTransaction upd timeoutMS s master skipUpdate returnString ovr
          events).1.buffer = [] ∧
      (ProcessOneTransaction upd timeoutMS s master skipUpdate returnString ovr
          events).2.1 = "" ∧
      (ProcessOneTransaction upd timeoutMS s master skipUpdate returnString ovr
          events).1.comTimoutError = s.comTimoutError + 1) := by
  simp only [ProcessOneTransaction]
  constructor
  · exact (potLoop_fail upd timeoutMS master skipUpdate returnString ovr
      events _).1
  · intro h
    obtain ⟨hb, hv, hc⟩ := (potLoop_fail upd timeoutMS master skipUpdate
      returnString ovr events _).2 h
    refine ⟨hb, hv, ?_⟩
    rw [hc]
    by_cases hbuf : s.buffer.length ≠ 0
    · rw [if_pos hbuf]
      rfl
    · rw [if_neg hbuf]

/-- C9 witness: `claim_C9` on a concrete timed-out transaction — no bytes
ever arrive and the single poll observation is past the 100 ms timeout: the
buffer ends flushed, the value is the empty string, and exactly one timeout
is counted. -/
theorem claim_C9_witness :
    (ProcessOneTransaction none 100 (initState false 1 []) [1, 3, 0, 0, 0, 1]
        true false none [⟨[], 101⟩]).1.buffer = [] ∧
    (ProcessOneTransaction none 100 (initState false 1 []) [1, 3, 0, 0, 0, 1]
        true false none [⟨[], 101⟩]).2.1 = "" ∧
    (ProcessOneTransaction none 100 (initState false 1 []) [1, 3, 0, 0, 0, 1]
        true false none [⟨[], 101⟩]).1.comTimoutError =
      (initState false 1 []).comTimoutError + 1 :=
  (claim_C9 none 100 (initState false 1 []) [1, 3, 0, 0, 0, 1] true false none
    [⟨[], 101⟩]).2 (by decide)

end Genmon
